import Mathlib

/-!
Verification development for the stock_analyse repository's scoring and
report-generation pipeline (src/stock_crawler.py, src/stock_scoring.py,
src/main.py).

Numbers flowing through the Python pipeline are IEEE doubles produced by
pandas.  The embedding models them as exact rationals wrapped in `FVal`,
which adds the two infinities and NaN so that the pandas behaviours that
matter here (0/0 = NaN in the RSI ratio, rolling windows shorter than the
window length = NaN, every comparison with NaN false) are reproduced
exactly.  The one genuinely irrational operation, the 20-day rolling
standard deviation, is embedded with `Rat.sqrt`, which agrees with the
real square root whenever the variance is a perfect square; every theorem
below evaluates it only at variance 0.
-/

namespace Stock

/-- Model of an IEEE double as carried through the pandas pipeline:
an exact rational, one of the two infinities, or NaN. -/
inductive FVal where
  | nan : FVal
  | pinf : FVal
  | ninf : FVal
  | val : ℚ → FVal
deriving DecidableEq

/-- IEEE `>` : any comparison involving NaN is false. -/
def FVal.gt : FVal → FVal → Bool
  | .nan, _ => false
  | _, .nan => false
  | .pinf, .pinf => false
  | .pinf, _ => true
  | .ninf, _ => false
  | .val _, .pinf => false
  | .val _, .ninf => true
  | .val a, .val b => a > b

/-- IEEE `<`. -/
def FVal.lt (a b : FVal) : Bool := FVal.gt b a

/-- IEEE equality (NaN equal to nothing, including itself). -/
def FVal.eqv : FVal → FVal → Bool
  | .val a, .val b => a == b
  | .pinf, .pinf => true
  | .ninf, .ninf => true
  | _, _ => false

/-- IEEE `>=`. -/
def FVal.ge (a b : FVal) : Bool := FVal.gt a b || FVal.eqv a b

/-- IEEE `<=`. -/
def FVal.le (a b : FVal) : Bool := FVal.ge b a

/-- IEEE addition (opposite infinities give NaN). -/
def FVal.add : FVal → FVal → FVal
  | .nan, _ => .nan
  | _, .nan => .nan
  | .pinf, .ninf => .nan
  | .ninf, .pinf => .nan
  | .pinf, _ => .pinf
  | _, .pinf => .pinf
  | .ninf, _ => .ninf
  | _, .ninf => .ninf
  | .val a, .val b => .val (a + b)

/-- IEEE negation. -/
def FVal.neg : FVal → FVal
  | .nan => .nan
  | .pinf => .ninf
  | .ninf => .pinf
  | .val a => .val (-a)

/-- IEEE subtraction. -/
def FVal.sub (a b : FVal) : FVal := FVal.add a (FVal.neg b)

/-- IEEE multiplication (infinity times zero gives NaN). -/
def FVal.mul : FVal → FVal → FVal
  | .nan, _ => .nan
  | _, .nan => .nan
  | .pinf, .pinf => .pinf
  | .pinf, .ninf => .ninf
  | .ninf, .pinf => .ninf
  | .ninf, .ninf => .pinf
  | .pinf, .val b => if b > 0 then .pinf else if b < 0 then .ninf else .nan
  | .ninf, .val b => if b > 0 then .ninf else if b < 0 then .pinf else .nan
  | .val a, .pinf => if a > 0 then .pinf else if a < 0 then .ninf else .nan
  | .val a, .ninf => if a > 0 then .ninf else if a < 0 then .pinf else .nan
  | .val a, .val b => .val (a * b)

/-- IEEE division.  The rational zero is treated as +0 (the pipeline's
denominators are rolling means of raw data, never a signed negative
zero): finite/0 is a signed infinity, 0/0 and inf/inf are NaN, and a
finite value divided by an infinity is 0. -/
def FVal.div : FVal → FVal → FVal
  | .nan, _ => .nan
  | _, .nan => .nan
  | .pinf, .pinf => .nan
  | .pinf, .ninf => .nan
  | .ninf, .pinf => .nan
  | .ninf, .ninf => .nan
  | .pinf, .val b => if b < 0 then .ninf else .pinf
  | .ninf, .val b => if b < 0 then .pinf else .ninf
  | .val _, .pinf => .val 0
  | .val _, .ninf => .val 0
  | .val a, .val b =>
      if b = 0 then (if a = 0 then .nan else if a > 0 then .pinf else .ninf)
      else .val (a / b)

/-- Rendering of a model float into report text.  Python formats with
`:.2f`; the embedding prints the exact rational instead (no claim reads
the numeric text of a report line). -/
def FVal.render : FVal → String
  | .nan => "nan"
  | .pinf => "inf"
  | .ninf => "-inf"
  | .val q => toString q

/-- Last `n` elements of a list (the trailing window, pandas `tail(n)`). -/
def lastN (n : ℕ) (l : List α) : List α := l.drop (l.length - n)

/-- Sum of a list of rationals. -/
def qsum (l : List ℚ) : ℚ := l.foldl (· + ·) 0

/-- Arithmetic mean (callers only use it on nonempty windows). -/
def qmean (l : List ℚ) : ℚ := qsum l / (l.length : ℚ)

/-- Last value of a pandas `rolling(n).mean()`: NaN when fewer than `n`
observations exist, otherwise the mean of the trailing `n`. -/
def rollingMeanLast (n : ℕ) (l : List ℚ) : FVal :=
  if l.length < n then .nan else .val (qmean (lastN n l))

/-- Sample variance with pandas' default `ddof=1` (callers use `n = 20`). -/
def sampleVar (l : List ℚ) : ℚ :=
  let m := qmean l
  qsum (l.map (fun x => (x - m) ^ 2)) / ((l.length : ℚ) - 1)

/-- Last value of a pandas `rolling(n).std()`.  `Rat.sqrt` stands in for
the real square root: exact whenever the variance is a perfect square,
and every theorem below only evaluates it at variance 0. -/
def rollingStdLast (n : ℕ) (l : List ℚ) : FVal :=
  if l.length < n then .nan else .val (Rat.sqrt (sampleVar (lastN n l)))

/-- Tail of an exponential moving average recursion
`e_t = alpha * x_t + (1 - alpha) * e_(t-1)`. -/
def emaFrom (alpha e : ℚ) : List ℚ → List ℚ
  | [] => []
  | x :: xs =>
      let e2 := alpha * x + (1 - alpha) * e
      e2 :: emaFrom alpha e2 xs

/-- Pandas `ewm(span=s, adjust=False).mean()`: seeded with the first
observation, recursion weight `2 / (span + 1)`. -/
def emaSeries (span : ℕ) : List ℚ → List ℚ
  | [] => []
  | x :: xs => x :: emaFrom (2 / ((span : ℚ) + 1)) x xs

/-- Consecutive differences of a series (pandas `diff()` without the
leading NaN entry). -/
def deltas : List ℚ → List ℚ
  | [] => []
  | [_] => []
  | a :: b :: rest => (b - a) :: deltas (b :: rest)

/-- Close-to-close gains, `delta.where(delta > 0, 0)`.  Pandas' leading
NaN difference fails the `> 0` test and becomes 0, so the first entry of
a nonempty series is 0. -/
def gains : List ℚ → List ℚ
  | [] => []
  | c :: cs => 0 :: (deltas (c :: cs)).map (fun d => if d > 0 then d else 0)

/-- Close-to-close losses, `-delta.where(delta < 0, 0)`. -/
def losses : List ℚ → List ℚ
  | [] => []
  | c :: cs => 0 :: (deltas (c :: cs)).map (fun d => if d < 0 then -d else 0)

/-- Last value of the 14-day RSI exactly as src/stock_crawler.py lines
205-216 compute it: `rs = avg_gain / avg_loss`, `rsi = 100 - 100/(1+rs)`,
under IEEE semantics (avg_loss = 0 with avg_gain > 0 gives rs = +inf and
RSI 100; 0/0 gives NaN which propagates). -/
def rsiLast (closes : List ℚ) : FVal :=
  let avg_gain := rollingMeanLast 14 (gains closes)
  let avg_loss := rollingMeanLast 14 (losses closes)
  let rs := FVal.div avg_gain avg_loss
  FVal.sub (.val 100) (FVal.div (.val 100) (FVal.add (.val 1) rs))

/-- Maximum of a list with a default for the empty list. -/
def listMaxD (d : ℚ) (l : List ℚ) : ℚ := l.foldl max (l.headD d)

/-- Minimum of a list with a default for the empty list. -/
def listMinD (d : ℚ) (l : List ℚ) : ℚ := l.foldl min (l.headD d)

/-- One row of the standardized daily frame built by
`get_stock_daily_data` (src/stock_crawler.py lines 102-114).  Dates are
kept as their rendered strings. -/
structure PriceBar where
  date : String
  openPrice : ℚ
  close : ℚ
  high : ℚ
  low : ℚ
  volume : ℚ
  amount : ℚ
  amplitude : ℚ
  pct_change : ℚ
  price_change : ℚ
  turnover : ℚ
deriving DecidableEq

/-- The indicator dictionary built by `get_technical_indicators`
(src/stock_crawler.py lines 185-272).  The MACD family comes from
`ewm(adjust=False)` recursions, which are defined for every nonempty
series, hence plain rationals; the rolling statistics can be NaN and the
volume-change ratio can divide by zero, hence `FVal`. -/
structure IndicatorSet where
  rsi_14 : FVal
  macd : ℚ
  macd_signal : ℚ
  macd_histogram : ℚ
  boll_upper : FVal
  boll_middle : FVal
  boll_lower : FVal
  ma5 : FVal
  ma10 : FVal
  ma20 : FVal
  ma50 : FVal
  volume_ma5 : FVal
  volume_ma10 : FVal
  volume_change : FVal
  resistance1 : ℚ
  support1 : ℚ
  recent_high : ℚ
  recent_low : ℚ
deriving DecidableEq

/-- Embedding of `get_technical_indicators` (src/stock_crawler.py lines
185-272) applied to an already-fetched daily frame: the empty frame
yields the empty dictionary (`none`), otherwise every indicator is the
last value of its rolling statistic over the frame. -/
def get_technical_indicators (df : List PriceBar) : Option IndicatorSet :=
  match df with
  | [] => none
  | b :: bs =>
      let bars := b :: bs
      let closes := bars.map (·.close)
      let volumes := bars.map (·.volume)
      let lastClose := closes.getLastD 0
      let lastVolume := volumes.getLastD 0
      let macdSeq := List.zipWith (· - ·) (emaSeries 12 closes) (emaSeries 26 closes)
      let signalSeq := emaSeries 9 macdSeq
      let macdLast := macdSeq.getLastD 0
      let signalLast := signalSeq.getLastD 0
      let sma20 := rollingMeanLast 20 closes
      let std20 := rollingStdLast 20 closes
      let vma5 := rollingMeanLast 5 volumes
      let recentHigh := listMaxD 0 (lastN 20 (bars.map (·.high)))
      let recentLow := listMinD 0 (lastN 20 (bars.map (·.low)))
      let pivot := (recentHigh + recentLow + lastClose) / 3
      some {
        rsi_14 := rsiLast closes
        macd := macdLast
        macd_signal := signalLast
        macd_histogram := macdLast - signalLast
        boll_upper := FVal.add sma20 (FVal.mul std20 (.val 2))
        boll_middle := sma20
        boll_lower := FVal.sub sma20 (FVal.mul std20 (.val 2))
        ma5 := rollingMeanLast 5 closes
        ma10 := rollingMeanLast 10 closes
        ma20 := rollingMeanLast 20 closes
        ma50 := rollingMeanLast 50 closes
        volume_ma5 := vma5
        volume_ma10 := rollingMeanLast 10 volumes
        volume_change := FVal.mul (FVal.sub (FVal.div (.val lastVolume) vma5) (.val 1)) (.val 100)
        resistance1 := 2 * pivot - recentLow
        support1 := 2 * pivot - recentHigh
        recent_high := recentHigh
        recent_low := recentLow
      }

/-- IEEE absolute value, used only in report comments. -/
def FVal.abs : FVal → FVal
  | .nan => .nan
  | .pinf => .pinf
  | .ninf => .pinf
  | .val a => .val |a|

/-- Clamp to `[0, 100]`, the `max(0, min(100, score))` ending every
analyzer's score computation. -/
def clamp0100 (q : ℚ) : ℚ := max 0 (min 100 q)

/-- Does `p` start the character list?  (Python substring machinery.) -/
def charsHeadMatch : List Char → List Char → Bool
  | [], _ => true
  | _ :: _, [] => false
  | a :: p, b :: s => a == b && charsHeadMatch p s

/-- Is `p` a contiguous run of the character list? -/
def charsContains (p : List Char) : List Char → Bool
  | [] => p.isEmpty
  | c :: t => charsHeadMatch p (c :: t) || charsContains p t

/-- Python's `pat in s` substring test. -/
def strContains (s pat : String) : Bool := charsContains pat.data s.data

/-- Python's `str.lower()`.  `Char.toLower` only lowers ASCII where
Python lowers all of Unicode, but the keyword lists below are Chinese
(caseless), so keyword matching is unaffected. -/
def strLower (s : String) : String := String.mk (s.data.map Char.toLower)

/-! ## The Technical analyzer (src/stock_scoring.py lines 98-288) -/

/-- The dictionary returned by `analyze_technical_indicators` on its
success path. -/
structure TechAnalysis where
  rsi_14 : FVal
  rsi_status : String
  rsi_comment : String
  boll_upper : FVal
  boll_middle : FVal
  boll_lower : FVal
  boll_status : String
  boll_comment : String
  ma5 : FVal
  ma10 : FVal
  ma20 : FVal
  ma50 : FVal
  ma_status : String
  ma_comment : String
  resistance1 : ℚ
  support1 : ℚ
  recent_high : ℚ
  recent_low : ℚ
  macd : ℚ
  macd_signal : ℚ
  macd_histogram : ℚ
  macd_status : String
  macd_comment : String
  volume_ma5 : FVal
  volume_ma10 : FVal
  volume_change : FVal
  volume_status : String
  volume_comment : String
  technical_score : ℚ
  current_price : ℚ

/-- Result of a sub-analyzer: its success dictionary, or the two-key
`\x7bstatus, message\x7d` dictionary of the no-data and error branches
(which carries no score). -/
inductive TechResult where
  | success (d : TechAnalysis)
  | failure (status message : String)

/-- RSI status classification (lines 121-128). -/
def rsiStatusOf (rsi : FVal) : String :=
  if FVal.gt rsi (.val 70) then "超买"
  else if FVal.lt rsi (.val 30) then "超卖"
  else "正常"

/-- RSI score contribution (lines 209-214): `40 <= rsi_14 <= 60` gives
+15, `30 <= rsi_14 <= 70` gives +10, anything else (including NaN, whose
comparisons are all false) +5. -/
def techRsiBonus (rsi : FVal) : ℚ :=
  if FVal.le (.val 40) rsi && FVal.le rsi (.val 60) then 15
  else if FVal.le (.val 30) rsi && FVal.le rsi (.val 70) then 10
  else 5

/-- Band position status (lines 138-145). -/
def bollStatusOf (cp : ℚ) (upper lower : FVal) : String :=
  if FVal.gt (.val cp) upper then "突破上轨"
  else if FVal.lt (.val cp) lower then "跌破下轨"
  else "正常"

/-- Band score contribution (lines 217-222). -/
def techBollBonus (cp : ℚ) (upper lower : FVal) : ℚ :=
  if FVal.gt (.val cp) upper then 5
  else if FVal.lt (.val cp) lower then 15
  else 10

/-- Moving-average stack status (lines 156-163): Python's chained
`ma5 > ma10 > ma20 > ma50`. -/
def maStackStatus (ma5 ma10 ma20 ma50 : FVal) : String :=
  if FVal.gt ma5 ma10 && FVal.gt ma10 ma20 && FVal.gt ma20 ma50 then "多头排列"
  else if FVal.lt ma5 ma10 && FVal.lt ma10 ma20 && FVal.lt ma20 ma50 then "空头排列"
  else "震荡"

/-- Moving-average score contribution (lines 225-230). -/
def techMaBonus (st : String) : ℚ :=
  if st = "多头排列" then 20 else if st = "震荡" then 10 else 5

/-- MACD cross status (lines 179-186). -/
def macdCrossStatus (m s h : ℚ) : String :=
  if m > s ∧ h > 0 then "金叉"
  else if m < s ∧ h < 0 then "死叉"
  else "震荡"

/-- MACD score contribution (lines 233-238). -/
def techMacdBonus (st : String) : ℚ :=
  if st = "金叉" then 15 else if st = "震荡" then 10 else 5

/-- Volume status (lines 196-203). -/
def volumeStatusOf (vc : FVal) : String :=
  if FVal.gt vc (.val 50) then "放量"
  else if FVal.lt vc (.val (-30)) then "缩量"
  else "正常"

/-- Volume score contribution (lines 241-246). -/
def techVolumeBonus (st : String) : ℚ :=
  if st = "放量" then 10 else if st = "正常" then 5 else 2

/-- The technical score (lines 206-249): base 50 plus the five category
contributions, clamped to `[0, 100]`. -/
def technicalScoreOfInd (ind : IndicatorSet) (current_price : ℚ) : ℚ :=
  clamp0100 (50 + techRsiBonus ind.rsi_14
    + techBollBonus current_price ind.boll_upper ind.boll_lower
    + techMaBonus (maStackStatus ind.ma5 ind.ma10 ind.ma20 ind.ma50)
    + techMacdBonus (macdCrossStatus ind.macd ind.macd_signal ind.macd_histogram)
    + techVolumeBonus (volumeStatusOf ind.volume_change))

/-- Embedding of `analyze_technical_indicators` (src/stock_scoring.py
lines 98-288).  An empty indicator dictionary is the falsy `not
indicators` branch; otherwise the statuses, comments and score are
computed from the indicator values and the last close. -/
def analyze_technical_indicators (indicators : Option IndicatorSet)
    (daily_data : List PriceBar) : TechResult :=
  match indicators with
  | none => .failure "error" "无技术指标数据"
  | some ind =>
      let current_price : ℚ := match daily_data.getLast? with
        | some bar => bar.close
        | none => 0
      let rsi_status := rsiStatusOf ind.rsi_14
      let rsi_comment :=
        if FVal.gt ind.rsi_14 (.val 70) then "RSI值高于70，显示短期上涨动能较强但需警惕回调风险"
        else if FVal.lt ind.rsi_14 (.val 30) then "RSI值低于30，显示短期下跌动能较强，可能有反弹机会"
        else "RSI值处于正常区间，市场情绪中性"
      let boll_status := bollStatusOf current_price ind.boll_upper ind.boll_lower
      let boll_comment :=
        if FVal.gt (.val current_price) ind.boll_upper then
          "股价已突破布林带上轨(" ++ ind.boll_upper.render ++ ")，显示短期强势，但可能面临回调压力"
        else if FVal.lt (.val current_price) ind.boll_lower then
          "股价已跌破布林带下轨(" ++ ind.boll_lower.render ++ ")，显示短期弱势，但可能有反弹机会"
        else "股价处于布林带通道内，波动率正常"
      let ma_status := maStackStatus ind.ma5 ind.ma10 ind.ma20 ind.ma50
      let ma_comment :=
        if ma_status = "多头排列" then "短期均线在长期均线上方，形成多头排列，中期趋势向好"
        else if ma_status = "空头排列" then "短期均线在长期均线下方，形成空头排列，中期趋势向弱"
        else "均线系统处于震荡状态，无明显趋势"
      let macd_status := macdCrossStatus ind.macd ind.macd_signal ind.macd_histogram
      let macd_comment :=
        if macd_status = "金叉" then "MACD线在信号线上方，柱状体为正，显示上涨动能增强"
        else if macd_status = "死叉" then "MACD线在信号线下方，柱状体为负，显示下跌动能增强"
        else "MACD处于震荡状态，无明显方向"
      let volume_status := volumeStatusOf ind.volume_change
      let volume_comment :=
        if FVal.gt ind.volume_change (.val 50) then
          "成交量较5日均值增长" ++ ind.volume_change.render ++ "%，显示市场活跃度提升"
        else if FVal.lt ind.volume_change (.val (-30)) then
          "成交量较5日均值下降" ++ ind.volume_change.abs.render ++ "%，显示市场活跃度降低"
        else "成交量处于正常水平"
      .success {
        rsi_14 := ind.rsi_14
        rsi_status := rsi_status
        rsi_comment := rsi_comment
        boll_upper := ind.boll_upper
        boll_middle := ind.boll_middle
        boll_lower := ind.boll_lower
        boll_status := boll_status
        boll_comment := boll_comment
        ma5 := ind.ma5
        ma10 := ind.ma10
        ma20 := ind.ma20
        ma50 := ind.ma50
        ma_status := ma_status
        ma_comment := ma_comment
        resistance1 := ind.resistance1
        support1 := ind.support1
        recent_high := ind.recent_high
        recent_low := ind.recent_low
        macd := ind.macd
        macd_signal := ind.macd_signal
        macd_histogram := ind.macd_histogram
        macd_status := macd_status
        macd_comment := macd_comment
        volume_ma5 := ind.volume_ma5
        volume_ma10 := ind.volume_ma10
        volume_change := ind.volume_change
        volume_status := volume_status
        volume_comment := volume_comment
        technical_score := technicalScoreOfInd ind current_price
        current_price := current_price
      }

/-! ## The Fund-Flow analyzer (src/stock_scoring.py lines 290-415) -/

/-- One row of the standardized fund-flow frame built by
`get_fund_flow_data` (src/stock_crawler.py lines 302-309).  The column
mapping there produces no `amount` column, and the analyzer reads it with
`latest_flow.get('amount', 0)`, so the field is optional. -/
structure FundFlowRecord where
  date : String
  main_net_inflow : ℚ
  super_net_inflow : ℚ
  large_net_inflow : ℚ
  medium_net_inflow : ℚ
  small_net_inflow : ℚ
  amount : Option ℚ := none
deriving DecidableEq

/-- The dictionary returned by `analyze_fund_flow` on its success path. -/
structure FundFlowAnalysis where
  main_net_inflow : ℚ
  main_flow_status : String
  main_flow_comment : String
  super_net_inflow : ℚ
  large_net_inflow : ℚ
  institutional_flow_comment : String
  medium_net_inflow : ℚ
  small_net_inflow : ℚ
  retail_flow_comment : String
  main_inflow_ratio : ℚ
  avg_main_net_inflow_5d : ℚ
  fund_flow_score : ℚ

/-- Result of the Fund-Flow analyzer: success dictionary, or the two-key
no-data and error dictionaries (no score, no flow fields). -/
inductive FundFlowResult where
  | success (d : FundFlowAnalysis)
  | failure (status message : String)

/-- Main-inflow share of total amount (lines 351-356): zero when the
`amount` field is absent or not positive, otherwise
`main_net_inflow / total_amount * 100`. -/
def mainInflowRatio (latest : FundFlowRecord) : ℚ :=
  if latest.amount.getD 0 > 0 then latest.main_net_inflow / latest.amount.getD 0 * 100
  else 0

/-- Main-fund score contribution (lines 362-375). -/
def mainFundBonus (latest : FundFlowRecord) : ℚ :=
  if latest.main_net_inflow > 0 then
    (if mainInflowRatio latest > 10 then 25
     else if mainInflowRatio latest > 5 then 20 else 15)
  else
    (if mainInflowRatio latest < -10 then 5
     else if mainInflowRatio latest < -5 then 10 else 15)

/-- Institutional-fund score contribution (lines 378-383). -/
def instFundBonus (latest : FundFlowRecord) : ℚ :=
  if latest.super_net_inflow > 0 ∧ latest.large_net_inflow > 0 then 20
  else if latest.super_net_inflow < 0 ∧ latest.large_net_inflow < 0 then 5
  else 10

/-- Retail-fund score contribution (lines 386-391). -/
def retailFundBonus (latest : FundFlowRecord) : ℚ :=
  if latest.medium_net_inflow > 0 ∧ latest.small_net_inflow > 0 then 10
  else if latest.medium_net_inflow < 0 ∧ latest.small_net_inflow < 0 then 5
  else 7

/-- The fund-flow score (lines 358-394). -/
def fundFlowScoreOfRec (latest : FundFlowRecord) : ℚ :=
  clamp0100 (50 + mainFundBonus latest + instFundBonus latest + retailFundBonus latest)

/-- Embedding of `analyze_fund_flow` (src/stock_scoring.py lines
290-415).  The empty frame returns the `\x7b"status": "warning",
"message": "无资金流向数据"\x7d` dictionary — note it carries no score
and no `main_flow_status` key. -/
def analyze_fund_flow (fund_flow_data : List FundFlowRecord) : FundFlowResult :=
  match fund_flow_data.getLast? with
  | none => .failure "warning" "无资金流向数据"
  | some latest =>
      let recent := lastN (min 5 fund_flow_data.length) fund_flow_data
      let avg_main := qmean (recent.map (·.main_net_inflow))
      let main_flow_status := if latest.main_net_inflow > 0 then "净流入" else "净流出"
      let main_flow_comment :=
        if latest.main_net_inflow > 0 then
          "主力资金净流入" ++ toString (latest.main_net_inflow / 10000) ++ "万元，显示机构资金积极介入"
        else
          "主力资金净流出" ++ toString (|latest.main_net_inflow| / 10000) ++ "万元，显示机构资金谨慎离场"
      let institutional_flow_comment :=
        if latest.super_net_inflow > 0 ∧ latest.large_net_inflow > 0 then
          "超大单和大单均呈现净流入，机构资金积极布局"
        else if latest.super_net_inflow < 0 ∧ latest.large_net_inflow < 0 then
          "超大单和大单均呈现净流出，机构资金谨慎离场"
        else "超大单和大单流向不一致，机构资金存在分歧"
      let retail_flow_comment :=
        if latest.medium_net_inflow < 0 ∧ latest.small_net_inflow < 0 then
          "中单和小单均呈现净流出，散户资金谨慎离场"
        else if latest.medium_net_inflow > 0 ∧ latest.small_net_inflow > 0 then
          "中单和小单均呈现净流入，散户资金积极介入"
        else "中单和小单流向不一致，散户资金存在分歧"
      .success {
        main_net_inflow := latest.main_net_inflow
        main_flow_status := main_flow_status
        main_flow_comment := main_flow_comment
        super_net_inflow := latest.super_net_inflow
        large_net_inflow := latest.large_net_inflow
        institutional_flow_comment := institutional_flow_comment
        medium_net_inflow := latest.medium_net_inflow
        small_net_inflow := latest.small_net_inflow
        retail_flow_comment := retail_flow_comment
        main_inflow_ratio := mainInflowRatio latest
        avg_main_net_inflow_5d := avg_main
        fund_flow_score := fundFlowScoreOfRec latest
      }

/-! ## The Market-Context analyzer (src/stock_scoring.py lines 417-500) -/

/-- The dictionary returned by `analyze_market_context`.  Its no-index
fallback (lines 433-440) still carries `market_trend`, `market_comment`
and `market_score` (= 50); only the success path adds the industry
fields, hence their `Option`. -/
structure MarketAnalysis where
  status : String
  market_trend : String
  market_comment : String
  industry_trend : Option String := none
  industry_comment : Option String := none
  market_score : ℚ

/-- Market-trend score contribution (lines 472-478). -/
def marketTrendBonus (t : String) : ℚ :=
  if t = "牛市" then 20 else if t = "震荡" then 10 else 5

/-- Industry-trend score contribution (lines 480-486); the analyzer
always fixes `industry_trend = "中性"`, so this always contributes 10. -/
def industryTrendBonus (t : String) : ℚ :=
  if t = "强势" then 15 else if t = "中性" then 10 else 5

/-- Embedding of `analyze_market_context` (src/stock_scoring.py lines
417-500), taking the two index close series the source fetches itself
(Shanghai 000001 and Shenzhen 399001). -/
def analyze_market_context (sh_closes sz_closes : List ℚ) : MarketAnalysis :=
  if sh_closes.isEmpty || sz_closes.isEmpty then
    { status := "warning"
      market_trend := "震荡"
      market_comment := "无法获取市场指数数据，市场环境分析受限"
      market_score := 50 }
  else
    let sh_ma5 := rollingMeanLast 5 sh_closes
    let sh_ma20 := rollingMeanLast 20 sh_closes
    let sz_ma5 := rollingMeanLast 5 sz_closes
    let sz_ma20 := rollingMeanLast 20 sz_closes
    let market_trend :=
      if FVal.gt sh_ma5 sh_ma20 && FVal.gt sz_ma5 sz_ma20 then "牛市"
      else if FVal.lt sh_ma5 sh_ma20 && FVal.lt sz_ma5 sz_ma20 then "熊市"
      else "震荡"
    let market_comment :=
      if FVal.gt sh_ma5 sh_ma20 && FVal.gt sz_ma5 sz_ma20 then
        "上证指数和深证成指均呈多头排列，市场整体处于牛市环境"
      else if FVal.lt sh_ma5 sh_ma20 && FVal.lt sz_ma5 sz_ma20 then
        "上证指数和深证成指均呈空头排列，市场整体处于熊市环境"
      else "上证指数和深证成指趋势不一致，市场处于震荡环境"
    let industry_trend := "中性"
    { status := "success"
      market_trend := market_trend
      market_comment := market_comment
      industry_trend := some industry_trend
      industry_comment := some "行业指数分析受限"
      market_score := 50 + marketTrendBonus market_trend + industryTrendBonus industry_trend }

/-! ## The Financial analyzer (src/stock_scoring.py lines 502-661) -/

/-- The financial dictionary built by `get_financial_data`
(src/stock_crawler.py lines 352-364).  The analyzer reads every field
with `.get(key, default)`, hence the `Option`s. -/
structure FinancialData where
  eps : Option ℚ := none
  net_profit_growth : Option ℚ := none
  revenue_growth : Option ℚ := none
  roe : Option ℚ := none
  gross_margin : Option ℚ := none
  net_margin : Option ℚ := none
  report_date : Option String := none

/-- The dictionary returned by `analyze_financial_data` on success. -/
structure FinancialAnalysis where
  eps : ℚ
  net_profit_growth : ℚ
  profit_growth_status : String
  profit_growth_comment : String
  revenue_growth : ℚ
  revenue_growth_status : String
  revenue_growth_comment : String
  roe : ℚ
  roe_status : String
  roe_comment : String
  gross_margin : ℚ
  gross_margin_status : String
  gross_margin_comment : String
  net_margin : ℚ
  report_date : String
  financial_score : ℚ

/-- Result of the Financial analyzer. -/
inductive FinResult where
  | success (d : FinancialAnalysis)
  | failure (status message : String)

/-- Net-profit-growth score contribution (lines 596-603). -/
def finProfitBonus (g : ℚ) : ℚ :=
  if g > 30 then 20 else if g > 15 then 15 else if g > 0 then 10 else 5

/-- Revenue-growth score contribution (lines 606-613). -/
def finRevenueBonus (g : ℚ) : ℚ :=
  if g > 30 then 15 else if g > 15 then 10 else if g > 0 then 5 else 2

/-- ROE score contribution (lines 616-623). -/
def finRoeBonus (r : ℚ) : ℚ :=
  if r > 15 then 15 else if r > 10 then 10 else if r > 5 then 5 else 2

/-- Gross-margin score contribution (lines 626-633). -/
def finMarginBonus (m : ℚ) : ℚ :=
  if m > 40 then 10 else if m > 30 then 7 else if m > 20 then 5 else 3

/-- The financial score (lines 592-636). -/
def financialScoreOfData (g r roe m : ℚ) : ℚ :=
  clamp0100 (50 + finProfitBonus g + finRevenueBonus r + finRoeBonus roe + finMarginBonus m)

/-- Growth-rate status classification, shared shape of lines 527-541 and
543-558. -/
def growthStatusOf (g : ℚ) : String :=
  if g > 30 then "高速增长" else if g > 15 then "稳健增长"
  else if g > 0 then "低速增长" else "负增长"

/-- Embedding of `analyze_financial_data` (src/stock_scoring.py lines
502-661): the empty dictionary (falsy) returns the warning branch;
otherwise statuses, comments and the score.  Comments are the source's
templates with the exact rational printed in place of `:.2f`. -/
def analyze_financial_data (financial_data : Option FinancialData) : FinResult :=
  match financial_data with
  | none => .failure "warning" "无财务数据"
  | some fd =>
      let eps := fd.eps.getD 0
      let net_profit_growth := fd.net_profit_growth.getD 0
      let revenue_growth := fd.revenue_growth.getD 0
      let roe := fd.roe.getD 0
      let gross_margin := fd.gross_margin.getD 0
      let net_margin := fd.net_margin.getD 0
      let report_date := fd.report_date.getD ""
      let profit_growth_status := growthStatusOf net_profit_growth
      let profit_growth_comment :=
        if net_profit_growth > 30 then
          "净利润同比增长" ++ toString net_profit_growth ++ "%，显示公司盈利能力强劲"
        else if net_profit_growth > 15 then
          "净利润同比增长" ++ toString net_profit_growth ++ "%，显示公司盈利能力稳健"
        else if net_profit_growth > 0 then
          "净利润同比增长" ++ toString net_profit_growth ++ "%，增长动力不足"
        else "净利润同比下降" ++ toString |net_profit_growth| ++ "%，显示公司盈利能力下滑"
      let revenue_growth_status := growthStatusOf revenue_growth
      let revenue_growth_comment :=
        if revenue_growth > 30 then
          "营收同比增长" ++ toString revenue_growth ++ "%，显示公司业务扩张迅速"
        else if revenue_growth > 15 then
          "营收同比增长" ++ toString revenue_growth ++ "%，显示公司业务稳健发展"
        else if revenue_growth > 0 then
          "营收同比增长" ++ toString revenue_growth ++ "%，增长动力不足"
        else "营收同比下降" ++ toString |revenue_growth| ++ "%，显示公司业务收缩"
      let roe_status :=
        if roe > 15 then "优秀" else if roe > 10 then "良好"
        else if roe > 5 then "一般" else "正常"
      let roe_comment :=
        if roe > 15 then "ROE为" ++ toString roe ++ "%，显示公司资产利用效率高，股东回报良好"
        else if roe > 10 then "ROE为" ++ toString roe ++ "%，显示公司资产利用效率较好"
        else if roe > 5 then "ROE为" ++ toString roe ++ "%，显示公司资产利用效率一般"
        else "ROE为" ++ toString roe ++ "%，显示公司资产利用效率较低"
      let gross_margin_status :=
        if gross_margin > 40 then "优秀" else if gross_margin > 30 then "良好"
        else if gross_margin > 20 then "一般" else "正常"
      let gross_margin_comment :=
        if gross_margin > 40 then
          "毛利率为" ++ toString gross_margin ++ "%，显示公司产品竞争力强，议价能力高"
        else if gross_margin > 30 then
          "毛利率为" ++ toString gross_margin ++ "%，显示公司产品竞争力较好"
        else if gross_margin > 20 then
          "毛利率为" ++ toString gross_margin ++ "%，显示公司产品竞争力一般"
        else "毛利率为" ++ toString gross_margin ++ "%，显示公司产品竞争力较弱"
      .success {
        eps := eps
        net_profit_growth := net_profit_growth
        profit_growth_status := profit_growth_status
        profit_growth_comment := profit_growth_comment
        revenue_growth := revenue_growth
        revenue_growth_status := revenue_growth_status
        revenue_growth_comment := revenue_growth_comment
        roe := roe
        roe_status := roe_status
        roe_comment := roe_comment
        gross_margin := gross_margin
        gross_margin_status := gross_margin_status
        gross_margin_comment := gross_margin_comment
        net_margin := net_margin
        report_date := report_date
        financial_score := financialScoreOfData net_profit_growth revenue_growth roe gross_margin
      }

/-! ## The News analyzer (src/stock_scoring.py lines 663-764) -/

/-- One row of the news frame built by `get_stock_news`
(src/stock_crawler.py lines 440-445). -/
structure NewsItem where
  publish_time : String
  title : String
  content : String
  url : String
deriving DecidableEq

/-- Positive keyword list (line 679). -/
def positiveKeywords : List String :=
  ["上涨", "增长", "利好", "增持", "回购", "业绩", "突破", "创新高", "战略合作", "扩张"]

/-- Negative keyword list (line 680). -/
def negativeKeywords : List String :=
  ["下跌", "亏损", "利空", "减持", "诉讼", "监管", "处罚", "风险", "违约", "暂停"]

/-- Python's `any(keyword in content or keyword in title for keyword in kws)`
over already-lowercased text (lines 690-691). -/
def newsMatchesAny (keywords : List String) (content title : String) : Bool :=
  keywords.any (fun kw => strContains content kw || strContains title kw)

/-- Exclusive three-way classification of one news item (lines 686-698):
positive only when some positive keyword matches and no negative one
does, negative symmetrically, neutral otherwise (in particular when both
lists match). -/
inductive NewsClass where
  | pos
  | neg
  | neutral
deriving DecidableEq, BEq

/-- Classification of a single item, on its lowercased title and content. -/
def classifyNewsItem (n : NewsItem) : NewsClass :=
  let content := strLower n.content
  let title := strLower n.title
  let is_positive := newsMatchesAny positiveKeywords content title
  let is_negative := newsMatchesAny negativeKeywords content title
  if is_positive && !is_negative then .pos
  else if is_negative && !is_positive then .neg
  else .neutral

/-- Number of items counted into `positive_count` (lines 693-694). -/
def positiveCount (items : List NewsItem) : ℕ :=
  items.countP (fun n => classifyNewsItem n == NewsClass.pos)

/-- Number of items counted into `negative_count` (lines 695-696). -/
def negativeCount (items : List NewsItem) : ℕ :=
  items.countP (fun n => classifyNewsItem n == NewsClass.neg)

/-- Number of items counted into `neutral_count` (lines 697-698). -/
def neutralCount (items : List NewsItem) : ℕ :=
  items.countP (fun n => classifyNewsItem n == NewsClass.neutral)

/-- Bullish major-event keyword test on a raw title (line 721). -/
def bullishEventMatch (title : String) : Bool :=
  strContains title "回购" || strContains title "增持" ||
    strContains title "战略合作" || strContains title "业绩预增"

/-- Bearish major-event keyword test on a raw title (line 723). -/
def bearishEventMatch (title : String) : Bool :=
  strContains title "减持" || strContains title "诉讼" ||
    strContains title "监管" || strContains title "处罚"

/-- Major-event extraction (lines 718-724): the titles matching either
direction, in frame order. -/
def majorEvents (items : List NewsItem) : List String :=
  items.foldr
    (fun n acc =>
      if bullishEventMatch n.title then n.title :: acc
      else if bearishEventMatch n.title then n.title :: acc
      else acc) []

/-- Sentiment score contribution from the positive share (lines 730-737). -/
def newsSentimentBonus (positiveShare : ℚ) : ℚ :=
  if positiveShare > 60 then 20 else if positiveShare > 40 then 15
  else if positiveShare > 30 then 10 else 5

/-- The news score (lines 726-746): base 50 plus the sentiment tier,
plus 10 when an extracted event title mentions buyback or stake-increase,
minus 5 when one mentions stake-decrease or litigation, clamped. -/
def newsScoreOfData (positiveShare : ℚ) (events : List String) : ℚ :=
  let bull := events.any (fun e => strContains e "回购" || strContains e "增持")
  let bear := events.any (fun e => strContains e "减持" || strContains e "诉讼")
  clamp0100 (50 + newsSentimentBonus positiveShare
    + (if bull then 10 else 0) - (if bear then 5 else 0))

/-- The dictionary returned by `analyze_news` on success. -/
structure NewsAnalysis where
  positive_count : ℕ
  negative_count : ℕ
  neutral_count : ℕ
  positive_share : ℚ
  negative_share : ℚ
  news_sentiment : String
  news_comment : String
  major_events : List String
  news_score : ℚ

/-- Result of the News analyzer. -/
inductive NewsResult where
  | success (d : NewsAnalysis)
  | failure (status message : String)

/-- Embedding of `analyze_news` (src/stock_scoring.py lines 663-764).
The `positive_share` and `negative_share` fields are the source's
`positive_ratio` and `negative_ratio` percentages. -/
def analyze_news (news_data : List NewsItem) : NewsResult :=
  match news_data with
  | [] => .failure "warning" "无相关新闻数据"
  | _ :: _ =>
      let total_news := news_data.length
      let pc := positiveCount news_data
      let nc := negativeCount news_data
      let positiveShare : ℚ := if 0 < total_news then (pc : ℚ) / (total_news : ℚ) * 100 else 0
      let negativeShare : ℚ := if 0 < total_news then (nc : ℚ) / (total_news : ℚ) * 100 else 0
      let news_sentiment :=
        if positiveShare > 60 then "积极" else if negativeShare > 60 then "消极" else "中性"
      let news_comment :=
        if positiveShare > 60 then
          "近期新闻情绪积极，" ++ toString positiveShare ++ "%的新闻为正面报道"
        else if negativeShare > 60 then
          "近期新闻情绪消极，" ++ toString negativeShare ++ "%的新闻为负面报道"
        else
          "近期新闻情绪中性，正面新闻占比" ++ toString positiveShare ++
            "%，负面新闻占比" ++ toString negativeShare ++ "%"
      let events := majorEvents news_data
      .success {
        positive_count := pc
        negative_count := nc
        neutral_count := neutralCount news_data
        positive_share := positiveShare
        negative_share := negativeShare
        news_sentiment := news_sentiment
        news_comment := news_comment
        major_events := events
        news_score := newsScoreOfData positiveShare events
      }

/-! ## Score extraction and aggregation
(src/stock_scoring.py lines 856-884) -/

/-- The `technical_analysis.get('technical_score', 50)` read (line 857):
the success dictionary's score, the default 50 for the scoreless no-data
and error dictionaries. -/
def techScoreOf : TechResult → ℚ
  | .success d => d.technical_score
  | .failure _ _ => 50

/-- The `fund_flow_analysis.get('fund_flow_score', 50)` read (line 858). -/
def fundScoreOf : FundFlowResult → ℚ
  | .success d => d.fund_flow_score
  | .failure _ _ => 50

/-- The `financial_analysis.get('financial_score', 50)` read (line 859). -/
def finScoreOf : FinResult → ℚ
  | .success d => d.financial_score
  | .failure _ _ => 50

/-- The `news_analysis.get('news_score', 50)` read (line 860). -/
def newsScoreOf : NewsResult → ℚ
  | .success d => d.news_score
  | .failure _ _ => 50

/-- The `market_context_analysis.get('market_score', 50)` read (line
861); both branches of the market analyzer carry the key. -/
def marketScoreOf (m : MarketAnalysis) : ℚ := m.market_score

/-- The composite score (lines 864-870): the fixed weighted sum
`technical*0.3 + fund_flow*0.25 + financial*0.2 + news*0.15 +
market*0.1` — the source applies no clamp here. -/
def overall_score (technical fund financial news market : ℚ) : ℚ :=
  technical * 0.3 + fund * 0.25 + financial * 0.2 + news * 0.15 + market * 0.1

/-- Conclusion tier and its comment (lines 872-884). -/
def reportConclusion (overall : ℚ) : String × String :=
  if overall ≥ 80 then ("强烈推荐", "技术面、资金面、基本面均表现优秀，建议积极配置")
  else if overall ≥ 65 then ("推荐", "整体表现良好，建议适当配置")
  else if overall ≥ 50 then ("中性", "各项指标表现一般，建议观望或少量配置")
  else ("谨慎", "存在较多风险因素，建议谨慎操作或回避")

/-! ## The Report Composer (src/stock_scoring.py lines 766-965) -/

/-- The basic-info dictionary built by `get_stock_basic_info`
(src/stock_crawler.py lines 59-66). -/
structure BasicInfo where
  stock_code : String
  stock_name : String
  industry : String
  area : String
  listing_date : String
  description : String

/-- The realtime dictionary built by `get_stock_realtime_data`
(src/stock_crawler.py lines 163-178); only the fields the report reads
plus the headline numbers are modelled. -/
structure RealtimeData where
  stock_code : String
  stock_name : String
  current_price : ℚ
  change_percent : ℚ
  volume : ℚ
  amount : ℚ
  date : String

/-- Byte-free lexicographic string comparison on code points, the order
pandas `sort_values` uses on the report's ISO date strings. -/
def leChars : List Char → List Char → Bool
  | [], _ => true
  | _ :: _, [] => false
  | a :: s, b :: t => if a = b then leChars s t else a.val ≤ b.val

/-- One line of the recent-trading-days table (lines 921-936), with the
matching fund-flow row looked up by date (lines 929-934).  Python's
2-decimal formatting is rendered as the exact rational. -/
def tradingRow (flow10 : List FundFlowRecord) (row : PriceBar) : String :=
  let fund_flow : ℚ :=
    match flow10.filter (fun fr => fr.date == row.date) with
    | [] => 0
    | fr :: _ => fr.main_net_inflow / 10000
  row.date ++ "\t" ++ toString row.close ++ "\t" ++ toString row.pct_change ++ "%\t"
    ++ toString row.turnover ++ "%\t" ++ toString (row.volume / 10000) ++ "\t"
    ++ toString (row.amount / 100000000) ++ "\t" ++ toString fund_flow ++ "\n"

/-- The recent-trading-days table body (lines 917-938): the last five
bars sorted by date descending, or the fallback line when the re-fetched
daily frame is empty. -/
def tradingTable (daily10 : List PriceBar) (flow10 : List FundFlowRecord) : String :=
  match daily10 with
  | [] => "无法获取近期交易数据\n"
  | _ :: _ =>
      let rows := List.mergeSort (lastN 5 daily10) (fun a b => leChars b.date.data a.date.data)
      String.join (rows.map (tradingRow flow10))

/-- Major-event bullet block, `major_events[:3]` (lines 846-849 and
943-947). -/
def eventBullets (events : List String) : String :=
  String.join ((events.take 3).map (fun e => "• " ++ e ++ "\n"))

/-- The full report text assembled by the body of
`generate_stock_analysis_report` (src/stock_scoring.py lines 792-960)
once every dictionary read has succeeded.  Section order and headings
follow the source line by line; `:.2f`-style formatting is rendered as
the exact rational. -/
def reportText (stock_code : String) (basic : BasicInfo) (rt : RealtimeData)
    (t : TechAnalysis) (f : FundFlowAnalysis) (market : MarketAnalysis)
    (fi : FinancialAnalysis) (n : NewsAnalysis)
    (daily10 : List PriceBar) (flow10 : List FundFlowRecord) : String :=
  let overall := overall_score t.technical_score f.fund_flow_score fi.financial_score
    n.news_score market.market_score
  let concl := reportConclusion overall
  basic.stock_name ++ "（" ++ stock_code ++ "）技术指标形态分析（截至" ++ rt.date.take 10 ++ "）\n\n"
  ++ "一、核心技术指标状态\n\n"
  ++ "RSI（14日）" ++ t.rsi_status ++ "\n"
  ++ "当前RSI值为" ++ t.rsi_14.render ++ "，" ++ t.rsi_comment ++ "。\n"
  ++ "布林带（BOLL）" ++ t.boll_status ++ "\n"
  ++ "股价（" ++ toString t.current_price ++ "元）" ++ t.boll_comment ++ "。\n"
  ++ "均线系统" ++ t.ma_status ++ "\n"
  ++ t.ma_comment ++ "\n\n"
  ++ "二、资金与量能验证\n\n"
  ++ "主力资金流向：" ++ f.main_flow_status ++ "\n"
  ++ f.main_flow_comment ++ "\n"
  ++ "机构资金动向：" ++ f.institutional_flow_comment ++ "\n"
  ++ "量能状态：" ++ t.volume_status ++ "\n"
  ++ t.volume_comment ++ "\n\n"
  ++ "三、关键压力与支撑位\n\n"
  ++ "压力位：" ++ toString t.resistance1 ++ "元（近期高点+布林带上轨）\n"
  ++ "支撑位：" ++ toString t.support1 ++ "元（近期低点+布林带下轨）\n\n"
  ++ "四、财务状况分析\n\n"
  ++ "盈利能力：" ++ fi.profit_growth_status ++ "\n"
  ++ fi.profit_growth_comment ++ "\n"
  ++ "财务健康度：ROE为" ++ toString fi.roe ++ "%，" ++ fi.roe_comment ++ "\n\n"
  ++ "五、市场环境分析\n\n"
  ++ "大盘趋势：" ++ market.market_trend ++ "\n"
  ++ market.market_comment ++ "\n\n"
  ++ "六、新闻舆情分析\n\n"
  ++ "新闻情绪：" ++ n.news_sentiment ++ "\n"
  ++ n.news_comment ++ "\n"
  ++ (if n.major_events.isEmpty then "" else "近期重大事件：\n" ++ eventBullets n.major_events)
  ++ "\n"
  ++ "七、结论与操作建议\n\n"
  ++ "当前综合评分为" ++ toString overall ++ "分，评级：" ++ concl.1 ++ "\n"
  ++ concl.2 ++ "\n\n"
  ++ (if t.rsi_status = "超买" ∧ t.boll_status = "突破上轨" then
        "短期：RSI接近超买区域，且股价已突破布林带上轨，可逢高减仓部分仓位，规避回调风险；\n"
      else if t.rsi_status = "超卖" ∧ t.boll_status = "跌破下轨" then
        "短期：RSI处于超卖区域，且股价已跌破布林带下轨，可考虑逢低吸纳；\n"
      else "短期：技术指标处于正常区间，建议持有观望；\n")
  ++ (if t.ma_status = "多头排列" then
        "中期：均线系统呈多头排列，确立升势，回调至5日均线可考虑加仓；\n"
      else if t.ma_status = "空头排列" then
        "中期：均线系统呈空头排列，趋势向弱，反弹至5日均线可考虑减仓；\n"
      else "中期：均线系统处于震荡状态，建议根据短期信号灵活操作；\n")
  ++ "风险提示：若股价跌破" ++ toString t.support1 ++ "元且成交量萎缩，需警惕趋势反转。\n\n"
  ++ "近期交易明细补充（最近5个交易日）\n\n"
  ++ "一、每日交易数据概览\n\n"
  ++ "日期\t收盘价(元)\t涨跌幅\t换手率\t成交量(万手)\t成交额(亿元)\t主力资金流向(万元)\n"
  ++ tradingTable daily10 flow10
  ++ "\n"
  ++ (if n.major_events.isEmpty then "" else
        "二、重要事件影响\n\n" ++ eventBullets n.major_events ++ "\n")
  ++ "三、操作建议更新\n\n"
  ++ "短期风险：" ++ concl.2 ++ "\n"
  ++ "中期机会：若回调至" ++ toString t.support1 ++ "元附近且量能萎缩，可视为低吸机会\n"
  ++ "关键点位：\n"
  ++ "压力位：" ++ toString t.resistance1 ++ "元（近期高点）\n"
  ++ "支撑位：" ++ toString t.support1 ++ "元（近期低点）\n\n"
  ++ "(注：部分指标数据因数据源限制可能存在延迟，操作需结合实时行情调整。)\n"

/-- Success payload of a Technical result, if any. -/
def TechResult.ok? : TechResult → Option TechAnalysis
  | .success d => some d
  | .failure _ _ => none

/-- Success payload of a Fund-Flow result, if any. -/
def FundFlowResult.ok? : FundFlowResult → Option FundFlowAnalysis
  | .success d => some d
  | .failure _ _ => none

/-- Success payload of a Financial result, if any. -/
def FinResult.ok? : FinResult → Option FinancialAnalysis
  | .success d => some d
  | .failure _ _ => none

/-- Success payload of a News result, if any. -/
def NewsResult.ok? : NewsResult → Option NewsAnalysis
  | .success d => some d
  | .failure _ _ => none

/-- The fallible part of `generate_stock_analysis_report`.  The four
binds are, in source order, the first unconditional bracket reads of the
technical (line 800, `technical_analysis['rsi_status']`), fund-flow
(line 815, `fund_flow_analysis['main_flow_status']`), financial (line
832, `financial_analysis['profit_growth_status']`) and news (line 843,
`news_analysis['news_sentiment']`) results: on a failure-shaped two-key
dictionary that read raises KeyError.  Both market branches carry every
key the composer reads (lines 838-839), and the basic-info and realtime
dictionaries are complete, so no other read can fail. -/
def reportBody (stock_code : String) (basic : BasicInfo) (rt : RealtimeData)
    (tech : TechResult) (fund : FundFlowResult) (market : MarketAnalysis)
    (fin : FinResult) (news : NewsResult)
    (daily10 : List PriceBar) (flow10 : List FundFlowRecord) : Option String :=
  tech.ok?.bind fun t =>
  fund.ok?.bind fun f =>
  fin.ok?.bind fun fi =>
  news.ok?.bind fun n =>
  some (reportText stock_code basic rt t f market fi n daily10 flow10)

/-- The fixed error report of the composer's `except` branch (lines
962-965).  The source appends `str(e)`; the embedding keeps the fixed
template and omits the exception's own text. -/
def reportGenErrorText (stock_code : String) : String :=
  "【股票分析报告生成错误】生成股票 " ++ stock_code ++ " 分析报告失败"

/-- Embedding of `generate_stock_analysis_report` (src/stock_scoring.py
lines 766-965): the assembled report, or the fixed error string when a
dictionary read raised. -/
def generate_stock_analysis_report (stock_code : String) (basic : BasicInfo)
    (rt : RealtimeData) (tech : TechResult) (fund : FundFlowResult)
    (market : MarketAnalysis) (fin : FinResult) (news : NewsResult)
    (daily10 : List PriceBar) (flow10 : List FundFlowRecord) : String :=
  match reportBody stock_code basic rt tech fund market fin news daily10 flow10 with
  | some r => r
  | none => reportGenErrorText stock_code

/-! ## The Orchestrator (src/stock_scoring.py lines 28-96 and
src/main.py lines 52-113) -/

/-- Everything one run fetches from the Market Data Provider.  `none`
and `[]` model the provider's empty dictionaries and empty frames; the
provider functions catch their own exceptions and return empty results
(src/stock_crawler.py), so a fetch never raises into the pipeline.
`tech_daily` is the separate daily fetch `get_technical_indicators`
performs internally, and `daily10`/`flow10` are the composer's own
10-day re-fetches (lines 914-915). -/
structure FetchEnv where
  basic_info : Option BasicInfo
  realtime_data : Option RealtimeData
  daily_data : List PriceBar
  tech_daily : List PriceBar
  fund_flow_data : List FundFlowRecord
  financial_data : Option FinancialData
  news_data : List NewsItem
  sh_index : List ℚ
  sz_index : List ℚ
  daily10 : List PriceBar
  flow10 : List FundFlowRecord
  now : String

/-- The dictionary `analyze_stock` returns: `status` plus whichever of
the other keys its branch sets. -/
structure AnalyzeResult where
  status : String
  message : Option String := none
  stock_code : Option String := none
  report : Option String := none
  analysis_time : Option String := none

/-- Embedding of `analyze_stock` (src/stock_scoring.py lines 28-96):
the three mandatory-data guards in source order, then the five analyzers
and the composer, returning the success dictionary.  The final `except`
branch is unreachable in the embedding because every step is total. -/
def analyze_stock (stock_code : String) (env : FetchEnv) : AnalyzeResult :=
  match env.basic_info with
  | none =>
      { status := "error"
        message := some ("无法获取股票 " ++ stock_code ++ " 基本信息，分析终止") }
  | some basic =>
      match env.realtime_data with
      | none =>
          { status := "error"
            message := some ("无法获取股票 " ++ stock_code ++ " 实时数据，分析终止") }
      | some rt =>
          match env.daily_data with
          | [] =>
              { status := "error"
                message := some ("无法获取股票 " ++ stock_code ++ " 日线数据，分析终止") }
          | d :: ds =>
              let daily := d :: ds
              let technical_indicators := get_technical_indicators env.tech_daily
              let technical_analysis := analyze_technical_indicators technical_indicators daily
              let fund_flow_analysis := analyze_fund_flow env.fund_flow_data
              let market_context_analysis := analyze_market_context env.sh_index env.sz_index
              let financial_analysis := analyze_financial_data env.financial_data
              let news_analysis := analyze_news env.news_data
              let report := generate_stock_analysis_report stock_code basic rt
                technical_analysis fund_flow_analysis market_context_analysis
                financial_analysis news_analysis env.daily10 env.flow10
              { status := "success"
                stock_code := some stock_code
                report := some report
                analysis_time := some env.now }

/-- Environment of one `main` run (src/main.py): the fetch environment,
whether `setup_environment` succeeded (directories plus mail
configuration present, lines 115-145), and what the notification
transport `send_stock_analysis_report` returns. -/
structure MainEnv where
  fetch : FetchEnv
  setup_ok : Bool
  send_ok : Bool
  now : String

/-- The dictionary `main` returns. -/
structure MainResult where
  status : String
  stock_code : String
  message : String
  report_date : Option String := none

/-- Embedding of `main` (src/main.py lines 52-113): failed environment
setup and failed analysis give status "error"; a produced report that
the transport refuses gives status "failed"; otherwise "success".  The
trailing `except` branch is unreachable in the embedding because every
step is total. -/
def main (stock_code : String) (env : MainEnv) : MainResult :=
  if !env.setup_ok then
    { status := "error", stock_code := stock_code, message := "环境设置失败，任务终止" }
  else
    let analysis_result := analyze_stock stock_code env.fetch
    if analysis_result.status ≠ "success" then
      { status := "error", stock_code := stock_code
        message := "股票分析失败: " ++ analysis_result.message.getD "未知错误" }
    else if env.send_ok then
      { status := "success", stock_code := stock_code
        message := "股票分析报告已发送至指定邮箱", report_date := some env.now }
    else
      { status := "failed", stock_code := stock_code, message := "股票分析报告邮件发送失败" }

/-! ## Shared lemmas: clamp bounds and score-contribution bounds -/

lemma clamp0100_nonneg (q : ℚ) : 0 ≤ clamp0100 q := le_max_left _ _

lemma clamp0100_le (q : ℚ) : clamp0100 q ≤ 100 :=
  max_le (by norm_num) (min_le_left _ _)

lemma le_clamp0100 {q : ℚ} (h : 50 ≤ q) : 50 ≤ clamp0100 q :=
  le_max_of_le_right (le_min (by norm_num) h)

lemma clamp0100_eq {q : ℚ} (h0 : 0 ≤ q) (h1 : q ≤ 100) : clamp0100 q = q := by
  unfold clamp0100
  rw [min_eq_right h1, max_eq_right h0]

lemma techRsiBonus_bounds (r : FVal) : 5 ≤ techRsiBonus r ∧ techRsiBonus r ≤ 15 := by
  unfold techRsiBonus
  split
  · norm_num
  · split <;> norm_num

lemma techBollBonus_bounds (cp : ℚ) (u l : FVal) :
    5 ≤ techBollBonus cp u l ∧ techBollBonus cp u l ≤ 15 := by
  unfold techBollBonus
  split
  · norm_num
  · split <;> norm_num

lemma techMaBonus_bounds (s : String) : 5 ≤ techMaBonus s ∧ techMaBonus s ≤ 20 := by
  unfold techMaBonus
  split
  · norm_num
  · split <;> norm_num

lemma techMacdBonus_bounds (s : String) : 5 ≤ techMacdBonus s ∧ techMacdBonus s ≤ 15 := by
  unfold techMacdBonus
  split
  · norm_num
  · split <;> norm_num

lemma techVolumeBonus_bounds (s : String) : 2 ≤ techVolumeBonus s ∧ techVolumeBonus s ≤ 10 := by
  unfold techVolumeBonus
  split
  · norm_num
  · split <;> norm_num

lemma technicalScoreOfInd_bounds (ind : IndicatorSet) (cp : ℚ) :
    50 ≤ technicalScoreOfInd ind cp ∧ technicalScoreOfInd ind cp ≤ 100 := by
  obtain ⟨h1, _⟩ := techRsiBonus_bounds ind.rsi_14
  obtain ⟨h2, _⟩ := techBollBonus_bounds cp ind.boll_upper ind.boll_lower
  obtain ⟨h3, _⟩ := techMaBonus_bounds (maStackStatus ind.ma5 ind.ma10 ind.ma20 ind.ma50)
  obtain ⟨h4, _⟩ := techMacdBonus_bounds
    (macdCrossStatus ind.macd ind.macd_signal ind.macd_histogram)
  obtain ⟨h5, _⟩ := techVolumeBonus_bounds (volumeStatusOf ind.volume_change)
  exact ⟨le_clamp0100 (by linarith), clamp0100_le _⟩

lemma techScoreOf_bounds (ind? : Option IndicatorSet) (dd : List PriceBar) :
    50 ≤ techScoreOf (analyze_technical_indicators ind? dd) ∧
      techScoreOf (analyze_technical_indicators ind? dd) ≤ 100 := by
  cases ind? with
  | none =>
      constructor <;> simp [analyze_technical_indicators, techScoreOf] <;> norm_num
  | some ind =>
      simpa [analyze_technical_indicators, techScoreOf] using
        technicalScoreOfInd_bounds ind _

lemma mainFundBonus_bounds (r : FundFlowRecord) :
    5 ≤ mainFundBonus r ∧ mainFundBonus r ≤ 25 := by
  unfold mainFundBonus
  split
  · split
    · norm_num
    · split <;> norm_num
  · split
    · norm_num
    · split <;> norm_num

lemma instFundBonus_bounds (r : FundFlowRecord) :
    5 ≤ instFundBonus r ∧ instFundBonus r ≤ 20 := by
  unfold instFundBonus
  split
  · norm_num
  · split <;> norm_num

lemma retailFundBonus_bounds (r : FundFlowRecord) :
    5 ≤ retailFundBonus r ∧ retailFundBonus r ≤ 10 := by
  unfold retailFundBonus
  split
  · norm_num
  · split <;> norm_num

lemma fundFlowScoreOfRec_bounds (r : FundFlowRecord) :
    50 ≤ fundFlowScoreOfRec r ∧ fundFlowScoreOfRec r ≤ 100 := by
  obtain ⟨h1, _⟩ := mainFundBonus_bounds r
  obtain ⟨h2, _⟩ := instFundBonus_bounds r
  obtain ⟨h3, _⟩ := retailFundBonus_bounds r
  exact ⟨le_clamp0100 (by linarith), clamp0100_le _⟩

lemma fundScoreOf_bounds (l : List FundFlowRecord) :
    50 ≤ fundScoreOf (analyze_fund_flow l) ∧ fundScoreOf (analyze_fund_flow l) ≤ 100 := by
  cases hl : l.getLast? with
  | none =>
      constructor <;> simp [analyze_fund_flow, hl, fundScoreOf] <;> norm_num
  | some latest =>
      simpa [analyze_fund_flow, hl, fundScoreOf] using fundFlowScoreOfRec_bounds latest

lemma finProfitBonus_bounds (g : ℚ) : 5 ≤ finProfitBonus g ∧ finProfitBonus g ≤ 20 := by
  unfold finProfitBonus
  split
  · norm_num
  · split
    · norm_num
    · split <;> norm_num

lemma finRevenueBonus_bounds (g : ℚ) : 2 ≤ finRevenueBonus g ∧ finRevenueBonus g ≤ 15 := by
  unfold finRevenueBonus
  split
  · norm_num
  · split
    · norm_num
    · split <;> norm_num

lemma finRoeBonus_bounds (g : ℚ) : 2 ≤ finRoeBonus g ∧ finRoeBonus g ≤ 15 := by
  unfold finRoeBonus
  split
  · norm_num
  · split
    · norm_num
    · split <;> norm_num

lemma finMarginBonus_bounds (g : ℚ) : 3 ≤ finMarginBonus g ∧ finMarginBonus g ≤ 10 := by
  unfold finMarginBonus
  split
  · norm_num
  · split
    · norm_num
    · split <;> norm_num

lemma financialScoreOfData_bounds (g r roe m : ℚ) :
    50 ≤ financialScoreOfData g r roe m ∧ financialScoreOfData g r roe m ≤ 100 := by
  obtain ⟨h1, _⟩ := finProfitBonus_bounds g
  obtain ⟨h2, _⟩ := finRevenueBonus_bounds r
  obtain ⟨h3, _⟩ := finRoeBonus_bounds roe
  obtain ⟨h4, _⟩ := finMarginBonus_bounds m
  exact ⟨le_clamp0100 (by linarith), clamp0100_le _⟩

lemma finScoreOf_bounds (fd : Option FinancialData) :
    50 ≤ finScoreOf (analyze_financial_data fd) ∧
      finScoreOf (analyze_financial_data fd) ≤ 100 := by
  cases fd with
  | none =>
      constructor <;> simp [analyze_financial_data, finScoreOf] <;> norm_num
  | some d =>
      simpa [analyze_financial_data, finScoreOf] using
        financialScoreOfData_bounds (d.net_profit_growth.getD 0) (d.revenue_growth.getD 0)
          (d.roe.getD 0) (d.gross_margin.getD 0)

lemma newsSentimentBonus_bounds (p : ℚ) :
    5 ≤ newsSentimentBonus p ∧ newsSentimentBonus p ≤ 20 := by
  unfold newsSentimentBonus
  split
  · norm_num
  · split
    · norm_num
    · split <;> norm_num

lemma newsScoreOfData_bounds (p : ℚ) (ev : List String) :
    50 ≤ newsScoreOfData p ev ∧ newsScoreOfData p ev ≤ 100 := by
  obtain ⟨h1, _⟩ := newsSentimentBonus_bounds p
  unfold newsScoreOfData
  refine ⟨le_clamp0100 ?_, clamp0100_le _⟩
  split <;> split <;> norm_num <;> linarith

lemma newsScoreOf_bounds (l : List NewsItem) :
    50 ≤ newsScoreOf (analyze_news l) ∧ newsScoreOf (analyze_news l) ≤ 100 := by
  cases l with
  | nil =>
      constructor <;> simp [analyze_news, newsScoreOf] <;> norm_num
  | cons a t =>
      simpa [analyze_news, newsScoreOf] using
        newsScoreOfData_bounds _ (majorEvents (a :: t))

lemma marketTrendBonus_bounds (t : String) :
    5 ≤ marketTrendBonus t ∧ marketTrendBonus t ≤ 20 := by
  unfold marketTrendBonus
  split
  · norm_num
  · split <;> norm_num

lemma marketScoreAux (t : String) :
    50 ≤ 50 + marketTrendBonus t + industryTrendBonus "中性" ∧
      50 + marketTrendBonus t + industryTrendBonus "中性" ≤ 100 := by
  obtain ⟨h1, h2⟩ := marketTrendBonus_bounds t
  simp only [industryTrendBonus]
  rw [if_neg (by decide), if_pos trivial]
  constructor <;> linarith

lemma marketScoreOf_bounds (sh sz : List ℚ) :
    50 ≤ marketScoreOf (analyze_market_context sh sz) ∧
      marketScoreOf (analyze_market_context sh sz) ≤ 100 := by
  unfold marketScoreOf analyze_market_context
  split <;> dsimp only
  · norm_num
  · exact marketScoreAux _

/-! ## Claim theorems -/

/-- C1: for every run that reaches aggregation, the composite score is
the fixed weighted sum `technical*0.30 + fund_flow*0.25 + financial*0.20
+ news*0.15 + market*0.10` of the five sub-scores with each sub-score
read through its `.get(key, 50)` default; it lies in `[0, 100]` and
equals the clamp to `[0, 100]` of that weighted sum (the source applies
no clamp at aggregation, and none is needed because every sub-score is
in `[0, 100]` and the weights sum to 1). -/
theorem composite_is_clamped_weighted_sum
    (ind? : Option IndicatorSet) (daily : List PriceBar)
    (ff : List FundFlowRecord) (fd : Option FinancialData)
    (nd : List NewsItem) (sh sz : List ℚ) :
    0 ≤ overall_score (techScoreOf (analyze_technical_indicators ind? daily))
        (fundScoreOf (analyze_fund_flow ff)) (finScoreOf (analyze_financial_data fd))
        (newsScoreOf (analyze_news nd)) (marketScoreOf (analyze_market_context sh sz)) ∧
      overall_score (techScoreOf (analyze_technical_indicators ind? daily))
        (fundScoreOf (analyze_fund_flow ff)) (finScoreOf (analyze_financial_data fd))
        (newsScoreOf (analyze_news nd)) (marketScoreOf (analyze_market_context sh sz)) ≤ 100 ∧
      overall_score (techScoreOf (analyze_technical_indicators ind? daily))
        (fundScoreOf (analyze_fund_flow ff)) (finScoreOf (analyze_financial_data fd))
        (newsScoreOf (analyze_news nd)) (marketScoreOf (analyze_market_context sh sz)) =
        clamp0100 (overall_score (techScoreOf (analyze_technical_indicators ind? daily))
          (fundScoreOf (analyze_fund_flow ff)) (finScoreOf (analyze_financial_data fd))
          (newsScoreOf (analyze_news nd)) (marketScoreOf (analyze_market_context sh sz))) := by
  obtain ⟨t1, t2⟩ := techScoreOf_bounds ind? daily
  obtain ⟨f1, f2⟩ := fundScoreOf_bounds ff
  obtain ⟨i1, i2⟩ := finScoreOf_bounds fd
  obtain ⟨n1, n2⟩ := newsScoreOf_bounds nd
  obtain ⟨m1, m2⟩ := marketScoreOf_bounds sh sz
  unfold overall_score
  have h0 : (0 : ℚ) ≤
      techScoreOf (analyze_technical_indicators ind? daily) * 0.3 +
        fundScoreOf (analyze_fund_flow ff) * 0.25 +
        finScoreOf (analyze_financial_data fd) * 0.2 +
        newsScoreOf (analyze_news nd) * 0.15 +
        marketScoreOf (analyze_market_context sh sz) * 0.1 := by nlinarith
  have h1 : techScoreOf (analyze_technical_indicators ind? daily) * 0.3 +
        fundScoreOf (analyze_fund_flow ff) * 0.25 +
        finScoreOf (analyze_financial_data fd) * 0.2 +
        newsScoreOf (analyze_news nd) * 0.15 +
        marketScoreOf (analyze_market_context sh sz) * 0.1 ≤ 100 := by nlinarith
  exact ⟨h0, h1, (clamp0100_eq h0 h1).symm⟩

/-- C5: the composite score maps to the recommendation tier by the fixed
thresholds of src/stock_scoring.py lines 872-884: at least 80 gives the
strong-buy tier 强烈推荐, at least 65 but below 80 gives 推荐, at least
50 but below 65 gives 中性, and below 50 gives 谨慎. -/
theorem conclusion_tier_thresholds (s : ℚ) :
    (80 ≤ s → (reportConclusion s).1 = "强烈推荐") ∧
    (65 ≤ s → s < 80 → (reportConclusion s).1 = "推荐") ∧
    (50 ≤ s → s < 65 → (reportConclusion s).1 = "中性") ∧
    (s < 50 → (reportConclusion s).1 = "谨慎") := by
  refine ⟨fun h => ?_, fun h h8 => ?_, fun h h6 => ?_, fun h => ?_⟩ <;>
    simp only [reportConclusion]
  · rw [if_pos h]
  · rw [if_neg (by linarith), if_pos h]
  · rw [if_neg (by linarith), if_neg (by linarith), if_pos h]
  · rw [if_neg (by linarith), if_neg (by linarith), if_neg (by linarith)]

/-- Witness for C5 at the concrete composite 72: the buy tier. -/
theorem conclusion_tier_thresholds_witness : (reportConclusion 72).1 = "推荐" :=
  (conclusion_tier_thresholds 72).2.1 (by norm_num) (by norm_num)

/-- The latest fund-flow record of the C6 boundary example:
`main_net_inflow = +100000` and total `amount = 1000000`. -/
def boundaryFlowRecord : FundFlowRecord :=
  { date := "2024-01-02", main_net_inflow := 100000, super_net_inflow := 0,
    large_net_inflow := 0, medium_net_inflow := 0, small_net_inflow := 0,
    amount := some 1000000 }

/-- C6: on a latest record with `main_net_inflow = +100000` and total
amount 1000000 the Fund-Flow analyzer computes `main_inflow_ratio = 10`,
which earns the `> 5` tier bonus +20 and not the `> 10` tier bonus +25
(10 is not `> 10`); and whenever the amount read is 0 the ratio is
defined to be 0 instead of dividing. -/
theorem fund_flow_ratio_boundary :
    ((analyze_fund_flow [boundaryFlowRecord]).ok?.map (·.main_inflow_ratio)) = some 10 ∧
    mainFundBonus boundaryFlowRecord = 20 ∧
    mainFundBonus boundaryFlowRecord ≠ 25 ∧
    (∀ r : FundFlowRecord, r.amount.getD 0 = 0 → mainInflowRatio r = 0) := by
  have hr : mainInflowRatio boundaryFlowRecord = 10 := by
    simp only [mainInflowRatio, boundaryFlowRecord]
    norm_num
  have hb : mainFundBonus boundaryFlowRecord = 20 := by
    simp only [mainFundBonus, hr]
    norm_num [boundaryFlowRecord]
  refine ⟨?_, hb, ?_, ?_⟩
  · simp [analyze_fund_flow, FundFlowResult.ok?, hr]
  · rw [hb]
    norm_num
  · intro r h
    simp [mainInflowRatio, h]

/-- A fund-flow record whose amount read defaults to 0. -/
def noAmountFlowRecord : FundFlowRecord :=
  { date := "", main_net_inflow := 5, super_net_inflow := 0,
    large_net_inflow := 0, medium_net_inflow := 0, small_net_inflow := 0,
    amount := none }

/-- Witness for C6's zero-amount clause at a record with no amount
field. -/
theorem fund_flow_ratio_boundary_witness : mainInflowRatio noAmountFlowRecord = 0 :=
  fund_flow_ratio_boundary.2.2.2 noAmountFlowRecord rfl

/-- C7: a news item whose lowercased title or content matches at least
one positive keyword and at least one negative keyword is classified
neutral, and contributes to neither the positive count nor the negative
count (src/stock_scoring.py lines 686-698). -/
theorem news_both_keywords_neutral (n : NewsItem) (l : List NewsItem)
    (hp : newsMatchesAny positiveKeywords (strLower n.content) (strLower n.title) = true)
    (hn : newsMatchesAny negativeKeywords (strLower n.content) (strLower n.title) = true) :
    classifyNewsItem n = NewsClass.neutral ∧
    positiveCount (l ++ [n]) = positiveCount l ∧
    negativeCount (l ++ [n]) = negativeCount l := by
  have hc : classifyNewsItem n = NewsClass.neutral := by
    simp [classifyNewsItem, hp, hn]
  refine ⟨hc, ?_, ?_⟩ <;>
      simp [positiveCount, negativeCount, List.countP_append, List.countP_cons, hc] <;>
    decide

/-- A news item whose title holds both the positive keyword 上涨 and the
negative keyword 下跌. -/
def bothKeywordsItem : NewsItem :=
  { publish_time := "2024-01-02", title := "公司股价上涨后下跌", content := "", url := "" }

/-- Witness for C7: the mixed-keyword item is neutral and counts into
neither numerator. -/
theorem news_both_keywords_neutral_witness :
    classifyNewsItem bothKeywordsItem = NewsClass.neutral ∧
    positiveCount ([] ++ [bothKeywordsItem]) = positiveCount [] ∧
    negativeCount ([] ++ [bothKeywordsItem]) = negativeCount [] :=
  news_both_keywords_neutral bothKeywordsItem [] (by decide) (by decide)

/-- C3: whenever a mandatory source is missing — basic info empty,
realtime quote empty, or the daily history empty — `analyze_stock`
returns the structured error dictionary whose message names that source,
before anything else runs.  The equations hold for every value of the
optional-data fields, so no sub-analyzer output can influence the
result. -/
theorem analyze_stock_missing_mandatory (code : String) (env : FetchEnv) :
    (env.basic_info = none →
      analyze_stock code env =
        { status := "error",
          message := some ("无法获取股票 " ++ code ++ " 基本信息，分析终止") }) ∧
    (∀ b, env.basic_info = some b → env.realtime_data = none →
      analyze_stock code env =
        { status := "error",
          message := some ("无法获取股票 " ++ code ++ " 实时数据，分析终止") }) ∧
    (∀ b r, env.basic_info = some b → env.realtime_data = some r →
      env.daily_data = [] →
      analyze_stock code env =
        { status := "error",
          message := some ("无法获取股票 " ++ code ++ " 日线数据，分析终止") }) := by
  obtain ⟨bi, rte, dd, td, ff, fi, nd, sh, sz, d10, f10, now⟩ := env
  refine ⟨fun hb => ?_, fun b hb hr => ?_, fun b r hb hr hd => ?_⟩
  · dsimp only at hb; subst hb; rfl
  · dsimp only at hb hr; subst hb; subst hr; rfl
  · dsimp only at hb hr hd; subst hb; subst hr; subst hd; rfl

/-- A concrete non-empty basic-info dictionary. -/
def basicW : BasicInfo :=
  { stock_code := "600519", stock_name := "贵州茅台", industry := "酿酒",
    area := "贵州", listing_date := "2001-08-27", description := "" }

/-- A concrete non-empty realtime dictionary. -/
def rtW : RealtimeData :=
  { stock_code := "600519", stock_name := "贵州茅台", current_price := 1700,
    change_percent := 1, volume := 30000, amount := 5000000000,
    date := "2024-01-02 15:00:00" }

/-- A fetch environment whose mandatory daily history is empty while
basic info and the realtime quote are present. -/
def emptyDailyEnv : FetchEnv :=
  { basic_info := some basicW, realtime_data := some rtW, daily_data := [],
    tech_daily := [], fund_flow_data := [], financial_data := none,
    news_data := [], sh_index := [], sz_index := [], daily10 := [],
    flow10 := [], now := "2024-01-02 16:00:00" }

/-- Witness for C3 on the empty-daily-history environment. -/
theorem analyze_stock_missing_mandatory_witness :
    analyze_stock "600519" emptyDailyEnv =
      { status := "error",
        message := some ("无法获取股票 " ++ "600519" ++ " 日线数据，分析终止") } :=
  (analyze_stock_missing_mandatory "600519" emptyDailyEnv).2.2 basicW rtW rfl rfl rfl

/-- Shared helper: a fund-flow failure dictionary aborts the report body
at the `fund_flow_analysis['main_flow_status']` read (or already at the
technical read when that result failed too). -/
lemma reportBody_none_of_fund_failure (code : String) (basic : BasicInfo)
    (rt : RealtimeData) (tech : TechResult) (st msg : String)
    (market : MarketAnalysis) (fin : FinResult) (news : NewsResult)
    (d10 : List PriceBar) (f10 : List FundFlowRecord) :
    reportBody code basic rt tech (.failure st msg) market fin news d10 f10 = none := by
  cases tech <;> simp [reportBody, TechResult.ok?, FundFlowResult.ok?]

/-- Shared helper: with the mandatory data present and the fund-flow
frame empty, `analyze_stock` still returns status success but its report
is the composer's fixed error string — the KeyError on
`'main_flow_status'` is caught and replaces the whole report, so the
aggregation at lines 856-870 is never reached. -/
lemma analyze_stock_fund_empty_general (code : String) (env : FetchEnv)
    (b : BasicInfo) (r : RealtimeData) (d : PriceBar) (ds : List PriceBar)
    (hb : env.basic_info = some b) (hr : env.realtime_data = some r)
    (hd : env.daily_data = d :: ds) (hf : env.fund_flow_data = []) :
    (analyze_stock code env).status = "success" ∧
    (analyze_stock code env).report = some (reportGenErrorText code) := by
  obtain ⟨bi, rte, dd, td, ff, fi, nd, sh, sz, d10, f10, now⟩ := env
  dsimp only at hb hr hd hf
  subst hb; subst hr; subst hd; subst hf
  constructor
  · rfl
  · show (analyze_stock code _).report = _
    simp only [analyze_stock]
    have hfund : analyze_fund_flow ([] : List FundFlowRecord) =
        .failure "warning" "无资金流向数据" := rfl
    simp only [generate_stock_analysis_report, hfund, reportBody_none_of_fund_failure]

/-- C10: when a sub-analysis result lacks a key the composer reads
unconditionally — here the Fund-Flow analyzer's empty-data result, which
has no `main_flow_status` — report generation catches the exception and
returns the fixed 【股票分析报告生成错误】 string as the report, and
`analyze_stock` nevertheless returns status success with that string in
its report field. -/
theorem missing_key_error_report_still_success (code : String) (env : FetchEnv)
    (b : BasicInfo) (r : RealtimeData) (d : PriceBar) (ds : List PriceBar)
    (hb : env.basic_info = some b) (hr : env.realtime_data = some r)
    (hd : env.daily_data = d :: ds) (hf : env.fund_flow_data = []) :
    (analyze_stock code env).status = "success" ∧
    (analyze_stock code env).report = some (reportGenErrorText code) :=
  analyze_stock_fund_empty_general code env b r d ds hb hr hd hf

/-- A concrete daily bar for the witness environments. -/
def barW : PriceBar :=
  { date := "2024-01-02", openPrice := 1690, close := 1700, high := 1710,
    low := 1680, volume := 30000, amount := 5000000000, amplitude := 2,
    pct_change := 1, price_change := 17, turnover := 0.24 }

/-- A fetch environment with the mandatory data present and the
fund-flow frame empty. -/
def noFundFlowEnv : FetchEnv :=
  { basic_info := some basicW, realtime_data := some rtW,
    daily_data := [barW], tech_daily := [], fund_flow_data := [],
    financial_data := none, news_data := [], sh_index := [], sz_index := [],
    daily10 := [], flow10 := [], now := "2024-01-02 16:00:00" }

/-- Witness for C10 on the empty-fund-flow environment. -/
theorem missing_key_error_report_still_success_witness :
    (analyze_stock "600519" noFundFlowEnv).status = "success" ∧
    (analyze_stock "600519" noFundFlowEnv).report =
      some (reportGenErrorText "600519") :=
  missing_key_error_report_still_success "600519" noFundFlowEnv basicW rtW barW []
    rfl rfl rfl rfl

/-- C2 (evaluating the code at the failing input): the empty fund-flow
frame makes the analyzer return the scoreless warning dictionary, and
the run's report is the composer's error string — the composite score is
never computed, contrary to the spec's expectation that the neutral
default flows into a full report. -/
theorem fund_flow_empty_breaks_report :
    analyze_fund_flow ([] : List FundFlowRecord) =
      .failure "warning" "无资金流向数据" ∧
    (analyze_stock "600519" noFundFlowEnv).status = "success" ∧
    (analyze_stock "600519" noFundFlowEnv).report =
      some (reportGenErrorText "600519") :=
  ⟨rfl, analyze_stock_fund_empty_general "600519" noFundFlowEnv basicW rtW barW []
    rfl rfl rfl rfl⟩

/-- Shared helper: a composite of at least 50 never lands in the caution
tier. -/
lemma conclusion_ne_caution {s : ℚ} (h : 50 ≤ s) :
    (reportConclusion s).1 ≠ "谨慎" := by
  unfold reportConclusion
  by_cases h1 : s ≥ 80
  · rw [if_pos h1]; decide
  · rw [if_neg h1]
    by_cases h2 : s ≥ 65
    · rw [if_pos h2]; decide
    · rw [if_neg h2, if_pos (show s ≥ 50 from h)]; decide

/-- A news item whose only matches are the negative keyword and bearish
event keyword 减持: sentiment bonus 5, event penalty 5, score exactly
50. -/
def bearOnlyItem : NewsItem :=
  { publish_time := "2024-01-02", title := "股东减持", content := "", url := "" }

/-- C9: every sub-score entering aggregation is at least 50 — each
success branch adds non-negative tier bonuses to the base 50 and every
scoreless fallback reads as the default 50 — so the composite is at
least 50 and the below-50 caution tier 谨慎 is unreachable; the News
analyzer's worst case (minimum sentiment bonus +5 with the bearish-event
penalty -5) nets exactly 50, witnessed by a single stake-decrease item. -/
theorem sub_scores_floor_composite_floor
    (ind? : Option IndicatorSet) (daily : List PriceBar)
    (ff : List FundFlowRecord) (fd : Option FinancialData)
    (nd : List NewsItem) (sh sz : List ℚ) :
    50 ≤ techScoreOf (analyze_technical_indicators ind? daily) ∧
    50 ≤ fundScoreOf (analyze_fund_flow ff) ∧
    50 ≤ finScoreOf (analyze_financial_data fd) ∧
    50 ≤ newsScoreOf (analyze_news nd) ∧
    50 ≤ marketScoreOf (analyze_market_context sh sz) ∧
    (∀ st msg, techScoreOf (.failure st msg) = 50 ∧
      fundScoreOf (.failure st msg) = 50 ∧ finScoreOf (.failure st msg) = 50 ∧
      newsScoreOf (.failure st msg) = 50) ∧
    50 ≤ overall_score (techScoreOf (analyze_technical_indicators ind? daily))
      (fundScoreOf (analyze_fund_flow ff)) (finScoreOf (analyze_financial_data fd))
      (newsScoreOf (analyze_news nd)) (marketScoreOf (analyze_market_context sh sz)) ∧
    (reportConclusion (overall_score (techScoreOf (analyze_technical_indicators ind? daily))
      (fundScoreOf (analyze_fund_flow ff)) (finScoreOf (analyze_financial_data fd))
      (newsScoreOf (analyze_news nd))
      (marketScoreOf (analyze_market_context sh sz)))).1 ≠ "谨慎" ∧
    newsScoreOf (analyze_news [bearOnlyItem]) = 50 := by
  obtain ⟨t1, t2⟩ := techScoreOf_bounds ind? daily
  obtain ⟨f1, f2⟩ := fundScoreOf_bounds ff
  obtain ⟨i1, i2⟩ := finScoreOf_bounds fd
  obtain ⟨n1, n2⟩ := newsScoreOf_bounds nd
  obtain ⟨m1, m2⟩ := marketScoreOf_bounds sh sz
  have hov : 50 ≤ overall_score (techScoreOf (analyze_technical_indicators ind? daily))
      (fundScoreOf (analyze_fund_flow ff)) (finScoreOf (analyze_financial_data fd))
      (newsScoreOf (analyze_news nd)) (marketScoreOf (analyze_market_context sh sz)) := by
    unfold overall_score
    nlinarith
  have hbear : newsScoreOf (analyze_news [bearOnlyItem]) = 50 := by
    have hpc : positiveCount [bearOnlyItem] = 0 := by decide
    have hev : majorEvents [bearOnlyItem] = ["股东减持"] := by decide
    have hbull : (["股东减持"].any fun e =>
        strContains e "回购" || strContains e "增持") = false := by decide
    have hbearev : (["股东减持"].any fun e =>
        strContains e "减持" || strContains e "诉讼") = true := by decide
    simp only [analyze_news, newsScoreOf, hpc, hev, newsScoreOfData, hbull, hbearev]
    norm_num [newsSentimentBonus]
    rw [clamp0100_eq] <;> norm_num
  exact ⟨t1, f1, i1, n1, m1, fun st msg => ⟨rfl, rfl, rfl, rfl⟩, hov,
    conclusion_ne_caution hov, hbear⟩

/-- C8: for every environment `main` returns a structured result whose
status is exactly one of success, error or failed, and the failed status
arises precisely on the runs that reach delivery (setup succeeded and
analysis succeeded) where the notification transport returns false. -/
theorem main_status_trichotomy (code : String) (env : MainEnv) :
    ((main code env).status = "success" ∨ (main code env).status = "error" ∨
      (main code env).status = "failed") ∧
    ((main code env).status = "failed" ↔
      env.setup_ok = true ∧ (analyze_stock code env.fetch).status = "success" ∧
        env.send_ok = false) := by
  obtain ⟨fe, su, se, now⟩ := env
  dsimp only
  cases su <;> cases se <;>
    by_cases h : (analyze_stock code fe).status = "success" <;>
      simp_all [main]

/-! ## Evaluation lemmas on constant series, for the C4 example -/

lemma foldl_add_replicate (n : ℕ) (a q : ℚ) :
    (List.replicate n q).foldl (· + ·) a = a + n * q := by
  induction n generalizing a with
  | zero => simp
  | succ k ih =>
      rw [List.replicate_succ, List.foldl_cons, ih]
      push_cast
      ring

lemma qsum_replicate (n : ℕ) (q : ℚ) : qsum (List.replicate n q) = n * q := by
  unfold qsum
  rw [foldl_add_replicate]
  ring

lemma qmean_replicate {n : ℕ} (hn : n ≠ 0) (q : ℚ) :
    qmean (List.replicate n q) = q := by
  unfold qmean
  rw [qsum_replicate, List.length_replicate]
  have h : (n : ℚ) ≠ 0 := Nat.cast_ne_zero.2 hn
  field_simp

lemma lastN_replicate {α : Type _} {n m : ℕ} (h : n ≤ m) (a : α) :
    lastN n (List.replicate m a) = List.replicate n a := by
  unfold lastN
  rw [List.length_replicate, List.drop_replicate, Nat.sub_sub_self h]

lemma rollingMeanLast_replicate {n m : ℕ} (hn : n ≠ 0) (h : n ≤ m) (q : ℚ) :
    rollingMeanLast n (List.replicate m q) = .val q := by
  unfold rollingMeanLast
  rw [List.length_replicate, if_neg (by omega), lastN_replicate h, qmean_replicate hn]

lemma deltas_cons_replicate (n : ℕ) (q : ℚ) :
    deltas (q :: List.replicate n q) = List.replicate n 0 := by
  induction n with
  | zero => simp [deltas]
  | succ k ih =>
      rw [List.replicate_succ]
      rw [show deltas (q :: q :: List.replicate k q) =
        (q - q) :: deltas (q :: List.replicate k q) from rfl]
      rw [ih, sub_self, ← List.replicate_succ]

lemma gains_replicate {n : ℕ} (hn : n ≠ 0) (q : ℚ) :
    gains (List.replicate n q) = List.replicate n 0 := by
  obtain ⟨k, rfl⟩ : ∃ k, n = k + 1 := ⟨n - 1, by omega⟩
  rw [List.replicate_succ]
  show 0 :: List.map (fun d => if d > 0 then d else 0) (deltas (q :: List.replicate k q)) =
    List.replicate (k + 1) 0
  rw [deltas_cons_replicate, List.map_replicate, if_neg (lt_irrefl 0),
    ← List.replicate_succ]

lemma losses_replicate {n : ℕ} (hn : n ≠ 0) (q : ℚ) :
    losses (List.replicate n q) = List.replicate n 0 := by
  obtain ⟨k, rfl⟩ : ∃ k, n = k + 1 := ⟨n - 1, by omega⟩
  rw [List.replicate_succ]
  show 0 :: List.map (fun d => if d < 0 then -d else 0) (deltas (q :: List.replicate k q)) =
    List.replicate (k + 1) 0
  rw [deltas_cons_replicate, List.map_replicate, if_neg (lt_irrefl 0),
    ← List.replicate_succ]

/-- On a constant series both rolling averages of gains and losses are
0, the pandas ratio is `0/0 = NaN`, and the NaN propagates through
`100 - 100/(1+rs)`: the momentum oscillator is undefined, not any
conventional number. -/
lemma rsiLast_replicate {m : ℕ} (h : 14 ≤ m) (q : ℚ) :
    rsiLast (List.replicate m q) = .nan := by
  unfold rsiLast
  rw [gains_replicate (by omega), losses_replicate (by omega),
    rollingMeanLast_replicate (by norm_num) (by omega)]
  simp [FVal.div, FVal.add, FVal.sub, FVal.neg]

lemma emaFrom_const (a q : ℚ) (n : ℕ) :
    emaFrom a q (List.replicate n q) = List.replicate n q := by
  induction n with
  | zero => simp [emaFrom]
  | succ k ih =>
      rw [List.replicate_succ]
      simp only [emaFrom]
      rw [show a * q + (1 - a) * q = q by ring, ih, ← List.replicate_succ]

lemma emaSeries_const {n : ℕ} (hn : n ≠ 0) (s : ℕ) (q : ℚ) :
    emaSeries s (List.replicate n q) = List.replicate n q := by
  obtain ⟨k, rfl⟩ : ∃ k, n = k + 1 := ⟨n - 1, by omega⟩
  rw [List.replicate_succ]
  simp only [emaSeries]
  rw [emaFrom_const, ← List.replicate_succ]

lemma getLastD_replicate {α : Type _} {n : ℕ} (hn : n ≠ 0) (a d : α) :
    (List.replicate n a).getLastD d = a := by
  obtain ⟨k, rfl⟩ : ∃ k, n = k + 1 := ⟨n - 1, by omega⟩
  clear hn
  induction k generalizing d with
  | zero => simp
  | succ j ih =>
      rw [List.replicate_succ, List.getLastD_cons]
      exact ih a

lemma foldl_max_replicate (n : ℕ) (q : ℚ) :
    (List.replicate n q).foldl max q = q := by
  induction n with
  | zero => simp
  | succ k ih =>
      rw [List.replicate_succ, List.foldl_cons, max_self]
      exact ih

lemma foldl_min_replicate (n : ℕ) (q : ℚ) :
    (List.replicate n q).foldl min q = q := by
  induction n with
  | zero => simp
  | succ k ih =>
      rw [List.replicate_succ, List.foldl_cons, min_self]
      exact ih

lemma listMaxD_replicate {n : ℕ} (hn : n ≠ 0) (q d : ℚ) :
    listMaxD d (List.replicate n q) = q := by
  obtain ⟨k, rfl⟩ : ∃ k, n = k + 1 := ⟨n - 1, by omega⟩
  unfold listMaxD
  rw [List.replicate_succ]
  simp only [List.headD_cons, List.foldl_cons, max_self]
  exact foldl_max_replicate k q

lemma listMinD_replicate {n : ℕ} (hn : n ≠ 0) (q d : ℚ) :
    listMinD d (List.replicate n q) = q := by
  obtain ⟨k, rfl⟩ : ∃ k, n = k + 1 := ⟨n - 1, by omega⟩
  unfold listMinD
  rw [List.replicate_succ]
  simp only [List.headD_cons, List.foldl_cons, min_self]
  exact foldl_min_replicate k q

lemma sampleVar_replicate {n : ℕ} (hn : n ≠ 0) (q : ℚ) :
    sampleVar (List.replicate n q) = 0 := by
  have h := qmean_replicate hn q
  simp only [sampleVar, h, List.map_replicate, sub_self]
  norm_num [qsum_replicate]

lemma rat_sqrt_zero : Rat.sqrt 0 = 0 := by
  rw [show (0 : ℚ) = 0 * 0 by ring, Rat.sqrt_eq]
  simp

lemma rollingStdLast_replicate {n m : ℕ} (hn : n ≠ 0) (h : n ≤ m) (q : ℚ) :
    rollingStdLast n (List.replicate m q) = .val 0 := by
  unfold rollingStdLast
  rw [List.length_replicate, if_neg (by omega), lastN_replicate h,
    sampleVar_replicate hn, rat_sqrt_zero]

/-- A daily bar whose prices are the constant 10 (volume constant 100). -/
def constBar : PriceBar :=
  { date := "2024-01-02", openPrice := 10, close := 10, high := 10, low := 10,
    volume := 100, amount := 1000, amplitude := 0, pct_change := 0,
    price_change := 0, turnover := 1 }

/-- Sixty days of the constant bar: enough history for every rolling
window, including the 50-day moving average. -/
def constBars : List PriceBar := List.replicate 60 constBar

/-- The indicator set the calculator produces on the constant history:
every band and moving average is exactly 10, MACD and the volume-change
ratio are 0, the pivot levels are 10 — and the momentum oscillator is
NaN. -/
def constInd : IndicatorSet :=
  { rsi_14 := .nan, macd := 0, macd_signal := 0, macd_histogram := 0,
    boll_upper := .val 10, boll_middle := .val 10, boll_lower := .val 10,
    ma5 := .val 10, ma10 := .val 10, ma20 := .val 10, ma50 := .val 10,
    volume_ma5 := .val 100, volume_ma10 := .val 100, volume_change := .val 0,
    resistance1 := 10, support1 := 10, recent_high := 10, recent_low := 10 }

lemma get_technical_indicators_const :
    get_technical_indicators constBars = some constInd := by
  rw [show constBars = constBar :: List.replicate 59 constBar from rfl]
  simp only [get_technical_indicators]
  rw [show List.map (fun x : PriceBar => x.close) (constBar :: List.replicate 59 constBar) =
      List.replicate 60 (10 : ℚ) from rfl]
  rw [show List.map (fun x : PriceBar => x.volume) (constBar :: List.replicate 59 constBar) =
      List.replicate 60 (100 : ℚ) from rfl]
  rw [show List.map (fun x : PriceBar => x.high) (constBar :: List.replicate 59 constBar) =
      List.replicate 60 (10 : ℚ) from rfl]
  rw [show List.map (fun x : PriceBar => x.low) (constBar :: List.replicate 59 constBar) =
      List.replicate 60 (10 : ℚ) from rfl]
  rw [rsiLast_replicate (by norm_num),
    emaSeries_const (by norm_num) 12, emaSeries_const (by norm_num) 26,
    List.zipWith_replicate, inf_idem, sub_self,
    emaSeries_const (by norm_num) 9]
  rw [getLastD_replicate (by norm_num), getLastD_replicate (by norm_num),
    getLastD_replicate (by norm_num)]
  rw [rollingMeanLast_replicate (by norm_num) (by norm_num),
    rollingMeanLast_replicate (by norm_num) (by norm_num),
    rollingMeanLast_replicate (by norm_num) (by norm_num),
    rollingMeanLast_replicate (by norm_num) (by norm_num),
    rollingMeanLast_replicate (by norm_num) (by norm_num),
    rollingMeanLast_replicate (by norm_num) (by norm_num)]
  rw [rollingStdLast_replicate (by norm_num) (by norm_num)]
  rw [lastN_replicate (by norm_num)]
  rw [listMaxD_replicate (by norm_num), listMinD_replicate (by norm_num)]
  simp only [constInd, FVal.add, FVal.sub, FVal.neg, FVal.mul, FVal.div,
    Option.some.injEq, IndicatorSet.mk.injEq]
  norm_num

lemma gt_val_eq (a b : ℚ) : FVal.gt (.val a) (.val b) = decide (a > b) := rfl

lemma techRsiBonus_nan : techRsiBonus FVal.nan = 5 := by
  simp [techRsiBonus, FVal.le, FVal.ge, FVal.eqv, FVal.gt]

lemma technicalScoreOfInd_const : technicalScoreOfInd constInd 10 = 90 := by
  have hgt : FVal.gt (.val (10 : ℚ)) (.val 10) = false := by
    rw [gt_val_eq]
    exact decide_eq_false (by norm_num)
  have hboll : techBollBonus 10 constInd.boll_upper constInd.boll_lower = 10 := by
    simp [techBollBonus, constInd, FVal.lt, hgt]
  have hma : maStackStatus constInd.ma5 constInd.ma10 constInd.ma20 constInd.ma50 = "震荡" := by
    simp [maStackStatus, constInd, FVal.lt, hgt]
  have hmacd : macdCrossStatus constInd.macd constInd.macd_signal
      constInd.macd_histogram = "震荡" := by
    norm_num [macdCrossStatus, constInd]
  have hvol : volumeStatusOf constInd.volume_change = "正常" := by
    have hg1 : FVal.gt (.val (0 : ℚ)) (.val 50) = false := by
      rw [gt_val_eq]
      exact decide_eq_false (by norm_num)
    have hg2 : FVal.gt (.val (-30 : ℚ)) (.val 0) = false := by
      rw [gt_val_eq]
      exact decide_eq_false (by norm_num)
    simp [volumeStatusOf, FVal.lt, constInd, hg1, hg2]
  have hrsi : techRsiBonus constInd.rsi_14 = 5 := techRsiBonus_nan
  have hmab : techMaBonus "震荡" = 10 := by simp [techMaBonus]
  have hmacdb : techMacdBonus "震荡" = 10 := by simp [techMacdBonus]
  have hvolb : techVolumeBonus "正常" = 5 := by simp [techVolumeBonus]
  unfold technicalScoreOfInd
  rw [hrsi, hboll, hma, hmab, hmacd, hmacdb, hvol, hvolb]
  rw [show (50 : ℚ) + 5 + 10 + 10 + 10 + 5 = 90 by norm_num]
  exact clamp0100_eq (by norm_num) (by norm_num)

lemma constBars_getLast? : constBars.getLast? = some constBar := by
  rw [show constBars = List.replicate 60 constBar from rfl, List.getLast?_replicate]
  norm_num

/-- C4 counterexample: on the constant-10 price history the momentum
oscillator is not any "no change" convention value — it is NaN (pandas
`0/0`) — and the RSI category of the technical score falls through both
guarded ranges into the extreme `else` branch worth +5, not the
mixed/normal bonuses +15 or +10, so the claim that the score is built
only from mixed/normal branch bonuses fails. -/
theorem const_closes_rsi_undefined :
    (get_technical_indicators constBars).map
      (fun i => (i.rsi_14, techRsiBonus i.rsi_14)) = some (FVal.nan, 5) ∧
    (∀ q : ℚ, (FVal.nan : FVal) ≠ FVal.val q) ∧
    techRsiBonus FVal.nan ≠ 15 ∧ techRsiBonus FVal.nan ≠ 10 := by
  refine ⟨?_, fun q h => FVal.noConfusion h, ?_, ?_⟩
  · rw [get_technical_indicators_const]
    simp [constInd, techRsiBonus_nan]
  · rw [techRsiBonus_nan]
    norm_num
  · rw [techRsiBonus_nan]
    norm_num

/-- C4 as amended: on the constant-10 history every band and moving
average is exactly 10 with no bullish or bearish stack (status 震荡),
the MACD pair reads 震荡 and the volume status 正常, and the band
position is inside (正常); the momentum oscillator however is NaN, whose
comparisons are all false, so its status string still reads 正常 while
its score branch takes the extreme `else` bonus +5; the technical score
is 50 + 5 + 10 + 10 + 10 + 5 = 90. -/
theorem const_closes_technical_amended :
    get_technical_indicators constBars = some constInd ∧
    constInd.boll_upper = .val 10 ∧ constInd.boll_middle = .val 10 ∧
    constInd.boll_lower = .val 10 ∧ constInd.ma5 = .val 10 ∧
    constInd.ma10 = .val 10 ∧ constInd.ma20 = .val 10 ∧ constInd.ma50 = .val 10 ∧
    maStackStatus constInd.ma5 constInd.ma10 constInd.ma20 constInd.ma50 = "震荡" ∧
    macdCrossStatus constInd.macd constInd.macd_signal constInd.macd_histogram = "震荡" ∧
    volumeStatusOf constInd.volume_change = "正常" ∧
    bollStatusOf 10 constInd.boll_upper constInd.boll_lower = "正常" ∧
    rsiStatusOf constInd.rsi_14 = "正常" ∧
    constInd.rsi_14 = FVal.nan ∧
    techRsiBonus constInd.rsi_14 = 5 ∧
    techScoreOf (analyze_technical_indicators
      (get_technical_indicators constBars) constBars) = 90 := by
  have hgt : FVal.gt (.val (10 : ℚ)) (.val 10) = false := by
    rw [gt_val_eq]
    exact decide_eq_false (by norm_num)
  refine ⟨get_technical_indicators_const, rfl, rfl, rfl, rfl, rfl, rfl, rfl,
    ?_, ?_, ?_, ?_, ?_, rfl, techRsiBonus_nan, ?_⟩
  · simp [maStackStatus, constInd, FVal.lt, hgt]
  · norm_num [macdCrossStatus, constInd]
  · have hg1 : FVal.gt (.val (0 : ℚ)) (.val 50) = false := by
      rw [gt_val_eq]
      exact decide_eq_false (by norm_num)
    have hg2 : FVal.gt (.val (-30 : ℚ)) (.val 0) = false := by
      rw [gt_val_eq]
      exact decide_eq_false (by norm_num)
    simp [volumeStatusOf, FVal.lt, constInd, hg1, hg2]
  · simp [bollStatusOf, constInd, FVal.lt, hgt]
  · simp [rsiStatusOf, constInd, FVal.gt, FVal.lt]
  · rw [get_technical_indicators_const]
    simp only [analyze_technical_indicators, techScoreOf, constBars_getLast?]
    rw [show constBar.close = (10 : ℚ) from rfl]
    exact technicalScoreOfInd_const

end Stock
